import Mathlib

/-!
# V4L2 video decoder element (sys/v4l2/gstv4l2videodec.c)

A shallow embedding of the decoder element: the pending-frame correlator
(`gst_v4l2_video_dec_get_oldest_frame`), the capture loop
(`gst_v4l2_video_dec_loop`), the frame submission path
(`gst_v4l2_video_dec_handle_frame`) and the life-cycle operations
(`open`, `start`, `stop`, `set_format`, `flush`, `finish`, `change_state`).

Conventions of the embedding.

* The C object `GstV4l2VideoDec` is a record; every C function that mutates it
  becomes a function returning the new record.
* Results of collaborators that live outside the file (device queues, buffer
  pools, the video decoder base class, the source pad) are supplied by an
  environment record, one field per call site.
* The capture loop runs on its own task.  While the submission path has
  released the stream lock around a blocking enqueue, the iterations the task
  performs in that window are part of the environment (`during_header`,
  `during_payload`) and are executed by `run_task`.
* A failed `g_assert` or a NULL dereference ends the process: `Outcome.fault`
  carries the state in which that happened.
* Frame objects are C pointers; the base class numbers every frame it creates,
  so a frame object is identified by its `system_frame_number`.
-/

namespace V4l2Dec

/-! ## Data model -/

/-- Flow results of the pipeline: the enumeration `GstFlowReturn`. -/
inductive GstFlowReturn
  | GST_FLOW_CUSTOM_SUCCESS_2
  | GST_FLOW_CUSTOM_SUCCESS_1
  | GST_FLOW_CUSTOM_SUCCESS
  | GST_FLOW_OK
  | GST_FLOW_NOT_LINKED
  | GST_FLOW_FLUSHING
  | GST_FLOW_EOS
  | GST_FLOW_NOT_NEGOTIATED
  | GST_FLOW_ERROR
  | GST_FLOW_NOT_SUPPORTED
  | GST_FLOW_CUSTOM_ERROR
  | GST_FLOW_CUSTOM_ERROR_1
  | GST_FLOW_CUSTOM_ERROR_2
  deriving DecidableEq, Repr

open GstFlowReturn

/-- State of the source pad task that runs the capture loop. -/
inductive GstTaskState
  | GST_TASK_STARTED
  | GST_TASK_STOPPED
  | GST_TASK_PAUSED
  deriving DecidableEq, Repr

open GstTaskState

/-- A buffer: its bytes.  `gst_buffer_new ()` is the buffer without bytes. -/
structure GstBuffer where
  data : List Nat
  deriving DecidableEq, Repr

/-- Size of a buffer: `gst_buffer_get_size`. -/
def gst_buffer_get_size (buffer : GstBuffer) : Nat :=
  buffer.data.length

/-- Caps are the list of their structures; caps without a structure are empty. -/
abbrev GstCaps := List String

/-- Emptiness test on caps: `gst_caps_is_empty`. -/
def gst_caps_is_empty (caps : GstCaps) : Bool :=
  caps.isEmpty

/-- Stream description handed over by the base class (`GstVideoCodecState`). -/
structure GstVideoCodecState where
  caps : GstCaps
  codec_data : Option GstBuffer
  deriving DecidableEq, Repr

/-- Geometry reported by the capture queue (`GstVideoInfo`). -/
structure GstVideoInfo where
  format : Nat
  width : Nat
  height : Nat
  interlace_mode : Nat
  deriving DecidableEq, Repr

/-- A frame of the base class (`GstVideoCodecFrame`).  `pts` is a
`GstClockTime`, an unsigned 64-bit value; it is only ever compared. -/
structure GstVideoCodecFrame where
  system_frame_number : Nat
  pts : Nat
  input_buffer : Option GstBuffer
  output_buffer : Option GstBuffer
  deriving DecidableEq, Repr

/-- One device queue (`GstV4l2Object`), output side or capture side.

* `opened` is `GST_V4L2_IS_OPEN`, `active` is `GST_V4L2_IS_ACTIVE`;
* `flushing` is set by `gst_v4l2_object_unlock` and cleared by
  `gst_v4l2_object_unlock_stop`;
* `caps` is the format last configured, `set_format_calls` counts the calls of
  `gst_v4l2_object_set_format`;
* `queued` lists the buffers handed to `gst_v4l2_buffer_pool_process` on the
  pool of this queue, oldest first;
* `pool_flushes` counts the calls of `gst_v4l2_buffer_pool_flush`. -/
structure GstV4l2Object where
  opened : Bool
  active : Bool
  flushing : Bool
  caps : Option GstCaps
  set_format_calls : Nat
  queued : List GstBuffer
  pool_flushes : Nat
  deriving DecidableEq, Repr

/-- The decoder element (`GstV4l2VideoDec`) together with the parts of the
base class and of the source pad that the element drives:

* `frames` is the pending list of the base class (`priv->frames`), in the
  order in which the frames were handed in;
* `finished` lists the frames passed to `gst_video_decoder_finish_frame`,
  that is the frames emitted downstream, oldest first;
* `dropped` lists the frames passed to `gst_video_decoder_drop_frame`;
* `output_state` is the format announced by
  `gst_video_decoder_set_output_state`;
* `task` is the state of the source pad task. -/
structure GstV4l2VideoDec where
  v4l2output : GstV4l2Object
  v4l2capture : GstV4l2Object
  probed_srccaps : Option GstCaps
  probed_sinkcaps : Option GstCaps
  input_state : Option GstVideoCodecState
  active : Bool
  processing : Bool
  output_flow : GstFlowReturn
  frames : List GstVideoCodecFrame
  finished : List GstVideoCodecFrame
  dropped : List GstVideoCodecFrame
  output_state : Option GstVideoInfo
  task : GstTaskState
  deriving DecidableEq, Repr

/-- Result of an operation of the element: either it returns `ret` and leaves
the element in state `s`, or the process is ended by a failed assertion or a
NULL dereference while the element is in state `s`. -/
inductive Outcome (α : Type)
  | fault (s : GstV4l2VideoDec)
  | done (ret : α) (s : GstV4l2VideoDec)
  deriving DecidableEq, Repr

/-! ## Frame correlator -/

/-- The `for` loop of `gst_v4l2_video_dec_get_oldest_frame`: `frame` is the
candidate so far, the list is what is left to visit. -/
def get_oldest_frame_loop : Option GstVideoCodecFrame → List GstVideoCodecFrame →
    Option GstVideoCodecFrame
  | frame, [] => frame
  | none, f :: l => get_oldest_frame_loop (some f) l
  | some frame, f :: l =>
    if frame.pts > f.pts then get_oldest_frame_loop (some f) l
    else get_oldest_frame_loop (some frame) l

/-- The pending frame with the oldest timestamp, `NULL` when there is none:
`gst_v4l2_video_dec_get_oldest_frame` applied to the list returned by
`gst_video_decoder_get_frames`. -/
def gst_v4l2_video_dec_get_oldest_frame (frames : List GstVideoCodecFrame) :
    Option GstVideoCodecFrame :=
  get_oldest_frame_loop none frames

/-! ## Device queues

The functions of `gstv4l2object.c` and `gstv4l2bufferpool.c`.  Whether a call
succeeds is decided by the device; the caller passes that answer in. -/

/-- Modelled from the spec: `gst_v4l2_object_open` and
`gst_v4l2_object_open_shared` of gstv4l2object.c, missing here.  "open(direction,
device) -> QueueHandle | DeviceError": a successful open leaves the queue open,
a failed open leaves the queue as it was. -/
def gst_v4l2_object_open (o : GstV4l2Object) (ok : Bool) : GstV4l2Object :=
  if ok then { o with opened := true } else o

/-- Modelled from the spec: `gst_v4l2_object_close` of gstv4l2object.c, missing
here.  The queue is "destroyed at decoder close": it is no longer open. -/
def gst_v4l2_object_close (o : GstV4l2Object) : GstV4l2Object :=
  { o with opened := false }

/-- Modelled from the spec: `gst_v4l2_object_set_format` of gstv4l2object.c,
missing here.  "set_format(Format) -> success|NegotiationError": on success the
queue has a configured format and is active, on failure it keeps what it had. -/
def gst_v4l2_object_set_format (o : GstV4l2Object) (caps : GstCaps) (ok : Bool) :
    GstV4l2Object :=
  if ok then
    { o with active := true, caps := some caps, set_format_calls := o.set_format_calls + 1 }
  else
    { o with set_format_calls := o.set_format_calls + 1 }

/-- Modelled from the spec: `gst_v4l2_object_stop` of gstv4l2object.c, missing
here.  The queue is "stopped at decoder stop": it is no longer active. -/
def gst_v4l2_object_stop (o : GstV4l2Object) : GstV4l2Object :=
  { o with active := false }

/-- Modelled from the spec: `gst_v4l2_object_unlock` of gstv4l2object.c, missing
here.  Unblocking forces a blocked enqueue or dequeue to return `Flushing`. -/
def gst_v4l2_object_unlock (o : GstV4l2Object) : GstV4l2Object :=
  { o with flushing := true }

/-- Modelled from the spec: `gst_v4l2_object_unlock_stop` of gstv4l2object.c,
missing here.  It re-arms the unblock gate of the queue. -/
def gst_v4l2_object_unlock_stop (o : GstV4l2Object) : GstV4l2Object :=
  { o with flushing := false }

/-- Modelled from the spec: the effect of `gst_v4l2_buffer_pool_process` of
gstv4l2bufferpool.c, missing here, on the queue: the buffer has been handed to
the queue ("enqueue(Buffer) -> success|QueueFull|Flushing"); the flow result
of the call comes from the environment. -/
def gst_v4l2_buffer_pool_process (o : GstV4l2Object) (buffer : GstBuffer) : GstV4l2Object :=
  { o with queued := o.queued ++ [buffer] }

/-! ## Base class -/

/-- Modelled from the spec: `gst_video_decoder_release_frame` of the video
decoder base class, which is not part of these sources.  A pending frame is
"owned by the State Machine until matched with a decoded buffer": releasing
unlinks the frame object from the pending list, if it is there. -/
def gst_video_decoder_release_frame (frames : List GstVideoCodecFrame)
    (frame : GstVideoCodecFrame) : List GstVideoCodecFrame :=
  frames.eraseP (fun f => decide (f.system_frame_number = frame.system_frame_number))

/-- Modelled from the spec: `gst_video_decoder_drop_frame` of the video decoder
base class, which is not part of these sources.  "Frame dropped": the frame is
released without being emitted. -/
def gst_video_decoder_drop_frame (self : GstV4l2VideoDec) (frame : GstVideoCodecFrame) :
    GstV4l2VideoDec :=
  { self with
    frames := gst_video_decoder_release_frame self.frames frame
    dropped := self.dropped ++ [frame] }

/-- Modelled from the spec: `gst_video_decoder_finish_frame` of the video
decoder base class, which is not part of these sources.  The completed frame
is "emitted downstream" and leaves the pending set ("removes and returns the
frame"); the flow result of the push comes from the environment. -/
def gst_video_decoder_finish_frame (self : GstV4l2VideoDec) (frame : GstVideoCodecFrame) :
    GstV4l2VideoDec :=
  { self with
    frames := gst_video_decoder_release_frame self.frames frame
    finished := self.finished ++ [frame] }

/-- A store through a frame pointer, `frame->input_buffer = b`: the pending
list holds the same object, so the list element changes with it. -/
def set_input_buffer (frames : List GstVideoCodecFrame) (frame : GstVideoCodecFrame)
    (b : Option GstBuffer) : List GstVideoCodecFrame :=
  frames.map (fun f =>
    if f.system_frame_number = frame.system_frame_number then { f with input_buffer := b } else f)

/-! ## Capture loop -/

/-- What the collaborators answer during one iteration of the capture loop:
`acquire_ret` and `buffer` are the result of `gst_buffer_pool_acquire_buffer`,
`process_ret` is the result of `gst_v4l2_buffer_pool_process` on the capture
pool, `finish_ret` is the result of `gst_video_decoder_finish_frame`. -/
structure LoopEnv where
  acquire_ret : GstFlowReturn
  buffer : GstBuffer
  process_ret : GstFlowReturn
  finish_ret : GstFlowReturn
  deriving DecidableEq, Repr

/-- The label `beach` of `gst_v4l2_video_dec_loop`: the loop leaves, records
`ret`, clears `processing`, unblocks the output queue and pauses the task. -/
def loop_beach (self : GstV4l2VideoDec) (ret : GstFlowReturn) : GstV4l2VideoDec :=
  { self with
    output_flow := ret
    processing := false
    v4l2output := gst_v4l2_object_unlock self.v4l2output
    task := GST_TASK_PAUSED }

/-- One iteration of the capture loop: `gst_v4l2_video_dec_loop`. -/
def gst_v4l2_video_dec_loop (self : GstV4l2VideoDec) (env : LoopEnv) : GstV4l2VideoDec :=
  let ret := env.acquire_ret
  if ret ≠ GST_FLOW_OK then loop_beach self ret
  else if gst_buffer_get_size env.buffer = 0 then loop_beach self ret
  else
    let self := { self with
      v4l2capture := gst_v4l2_buffer_pool_process self.v4l2capture env.buffer }
    let ret := env.process_ret
    if ret ≠ GST_FLOW_OK then loop_beach self ret
    else
      match gst_v4l2_video_dec_get_oldest_frame self.frames with
      | some frame =>
        let frame := { frame with output_buffer := some env.buffer }
        let self := gst_video_decoder_finish_frame self frame
        let ret := env.finish_ret
        if ret ≠ GST_FLOW_OK then loop_beach self ret else self
      | none => self

/-- The iterations the capture task performs in a window in which the stream
lock is released: the task calls the loop function again and again as long as
it is started. -/
def run_task (self : GstV4l2VideoDec) : List LoopEnv → GstV4l2VideoDec
  | [] => self
  | env :: envs =>
    if self.task = GST_TASK_STARTED then run_task (gst_v4l2_video_dec_loop self env) envs
    else self

/-! ## Frame submission -/

/-- What the collaborators answer during one call of
`gst_v4l2_video_dec_handle_frame`, in the order of the call sites:

* `set_format_ok`: `gst_v4l2_object_set_format` on the output queue;
* `header_ret`: `gst_v4l2_buffer_pool_process` of the header, and
  `during_header` the capture-loop iterations performed while that call has
  the stream lock released;
* `setup_format`: `gst_v4l2_object_setup_format` on the capture queue, the
  geometry on success and nothing on failure;
* `negotiate_ok`: `gst_video_decoder_negotiate`;
* `srcpad_flushing`: `GST_PAD_IS_FLUSHING` on the source pad;
* `payload_ret`: `gst_v4l2_buffer_pool_process` of the input buffer, and
  `during_payload` the capture-loop iterations performed while that call has
  the stream lock released. -/
structure HandleFrameEnv where
  set_format_ok : Bool
  header_ret : GstFlowReturn
  during_header : List LoopEnv
  setup_format : Option GstVideoInfo
  negotiate_ok : Bool
  srcpad_flushing : Bool
  payload_ret : GstFlowReturn
  during_payload : List LoopEnv
  deriving DecidableEq, Repr

/-- The value of a call of `handle_frame`: the flow result and the frame object
as the call leaves it. -/
abbrev HandleFrameResult := Outcome (GstFlowReturn × GstVideoCodecFrame)

/-- The label `drop` of `gst_v4l2_video_dec_handle_frame`. -/
def handle_frame_drop (self : GstV4l2VideoDec) (frame : GstVideoCodecFrame)
    (ret : GstFlowReturn) : HandleFrameResult :=
  Outcome.done (ret, frame) (gst_video_decoder_drop_frame self frame)

/-- The label `flushing` of `gst_v4l2_video_dec_handle_frame`. -/
def handle_frame_flushing (self : GstV4l2VideoDec) (frame : GstVideoCodecFrame) :
    HandleFrameResult :=
  handle_frame_drop self frame GST_FLOW_FLUSHING

/-- The label `not_negotiated` of `gst_v4l2_video_dec_handle_frame`. -/
def handle_frame_not_negotiated (self : GstV4l2VideoDec) (frame : GstVideoCodecFrame) :
    HandleFrameResult :=
  handle_frame_drop self frame GST_FLOW_NOT_NEGOTIATED

/-- The capture task is started by `gst_v4l2_video_dec_handle_frame`: input
processing is enabled on the output queue, `processing` is set and the task of
the source pad is started. -/
def handle_frame_start_task (self : GstV4l2VideoDec) : GstV4l2VideoDec :=
  { self with
    v4l2output := gst_v4l2_object_unlock_stop self.v4l2output
    processing := true
    task := GST_TASK_STARTED }

/-- End of `gst_v4l2_video_dec_handle_frame`: the input buffer, if the frame
still has one, is enqueued to the output queue and released.  `ret` is the
flow result so far. -/
def handle_frame_enqueue (self : GstV4l2VideoDec) (frame : GstVideoCodecFrame)
    (env : HandleFrameEnv) (ret : GstFlowReturn) : HandleFrameResult :=
  match frame.input_buffer with
  | some input_buffer =>
    let self := { self with
      v4l2output := gst_v4l2_buffer_pool_process self.v4l2output input_buffer }
    let self := run_task self env.during_payload
    let ret := env.payload_ret
    let ret :=
      if ret = GST_FLOW_FLUSHING then
        if self.processing = false then self.output_flow else ret
      else ret
    let self := { self with frames := set_input_buffer self.frames frame none }
    Outcome.done (ret, { frame with input_buffer := none }) self
  | none => Outcome.done (ret, frame) self

/-- Last part of `gst_v4l2_video_dec_handle_frame`: the capture task is
started if it is not processing and did not stop on an error, then the input
buffer is enqueued.  `ret` is the flow result so far. -/
def handle_frame_process (self : GstV4l2VideoDec) (frame : GstVideoCodecFrame)
    (env : HandleFrameEnv) (ret : GstFlowReturn) : HandleFrameResult :=
  if self.processing = false ∧ self.output_flow ≠ GST_FLOW_OK then
    handle_frame_drop self frame self.output_flow
  else
    let self := if self.processing = false then handle_frame_start_task self else self
    handle_frame_enqueue self frame env ret

/-- First-frame part of `gst_v4l2_video_dec_handle_frame`, from the enqueue of
the header `codec_data` on: the header goes to the output queue with the
stream lock released, the capture format is read back from the device, the
output state is announced and negotiated downstream.  A successful
negotiation configures the capture queue ("negotiation triggers capture queue
setup"), so that the queue is active from then on. -/
def handle_frame_negotiate (self : GstV4l2VideoDec) (frame : GstVideoCodecFrame)
    (env : HandleFrameEnv) (codec_data : GstBuffer) : HandleFrameResult :=
  let self := { self with v4l2output := gst_v4l2_object_unlock_stop self.v4l2output }
  let self := { self with
    v4l2output := gst_v4l2_buffer_pool_process self.v4l2output codec_data }
  let self := run_task self env.during_header
  let ret := env.header_ret
  let self := { self with v4l2output := gst_v4l2_object_unlock self.v4l2output }
  match env.setup_format with
  | none => handle_frame_not_negotiated self frame
  | some info =>
    let self := { self with output_state := some info }
    if env.negotiate_ok = false then
      if env.srcpad_flushing then handle_frame_flushing self frame
      else handle_frame_not_negotiated self frame
    else
      let self := { self with v4l2capture := { self.v4l2capture with active := true } }
      handle_frame_process self frame env ret

/-- Middle part of `gst_v4l2_video_dec_handle_frame`: when the capture queue
is not active yet, the header is chosen (the codec data of the stream, or else
the input buffer of the frame, which the frame then no longer has) and sent.
Without an input state, or without any buffer to send, the call dereferences
NULL. -/
def handle_frame_capture (self : GstV4l2VideoDec) (frame : GstVideoCodecFrame)
    (env : HandleFrameEnv) : HandleFrameResult :=
  if self.v4l2capture.active = false then
    match self.input_state with
    | none => Outcome.fault self
    | some input_state =>
      match input_state.codec_data with
      | some codec_data => handle_frame_negotiate self frame env codec_data
      | none =>
        let codec_data := frame.input_buffer
        let self := { self with frames := set_input_buffer self.frames frame none }
        let frame := { frame with input_buffer := none }
        match codec_data with
        | none => Outcome.fault self
        | some codec_data => handle_frame_negotiate self frame env codec_data
  else handle_frame_process self frame env GST_FLOW_OK

/-- A frame is submitted: `gst_v4l2_video_dec_handle_frame`. -/
def gst_v4l2_video_dec_handle_frame (self : GstV4l2VideoDec) (frame : GstVideoCodecFrame)
    (env : HandleFrameEnv) : HandleFrameResult :=
  if self.active = false then handle_frame_flushing self frame
  else if self.v4l2output.active = false then
    match self.input_state with
    | none => Outcome.fault self
    | some input_state =>
      let self := { self with
        v4l2output :=
          gst_v4l2_object_set_format self.v4l2output input_state.caps env.set_format_ok }
      if env.set_format_ok = false then handle_frame_not_negotiated self frame
      else handle_frame_capture self frame env
  else handle_frame_capture self frame env

/-- Modelled from the spec: `gst_video_decoder_decode_frame` of the video
decoder base class, which is not part of these sources.  "record(frame) adds a
Pending Frame": the frame joins the pending list, then the `handle_frame`
method of the element is called on it. -/
def gst_video_decoder_decode_frame (self : GstV4l2VideoDec) (frame : GstVideoCodecFrame)
    (env : HandleFrameEnv) : HandleFrameResult :=
  gst_v4l2_video_dec_handle_frame { self with frames := self.frames ++ [frame] } frame env

/-! ## Life cycle -/

/-- What the device answers during `gst_v4l2_video_dec_open`: whether each
queue opens, and the caps probed on each queue. -/
structure OpenEnv where
  open_output_ok : Bool
  open_capture_ok : Bool
  sinkcaps : GstCaps
  srccaps : GstCaps
  deriving DecidableEq, Repr

/-- The label `failure` of `gst_v4l2_video_dec_open`. -/
def open_failure (self : GstV4l2VideoDec) : Bool × GstV4l2VideoDec :=
  let self :=
    if self.v4l2output.opened then
      { self with v4l2output := gst_v4l2_object_close self.v4l2output }
    else self
  let self :=
    if self.v4l2capture.opened then
      { self with v4l2capture := gst_v4l2_object_close self.v4l2capture }
    else self
  (false, { self with probed_srccaps := none, probed_sinkcaps := none })

/-- The device is opened and probed: `gst_v4l2_video_dec_open`. -/
def gst_v4l2_video_dec_open (self : GstV4l2VideoDec) (env : OpenEnv) :
    Bool × GstV4l2VideoDec :=
  let self := { self with
    v4l2output := gst_v4l2_object_open self.v4l2output env.open_output_ok }
  if env.open_output_ok = false then open_failure self
  else
    let self := { self with
      v4l2capture := gst_v4l2_object_open self.v4l2capture env.open_capture_ok }
    if env.open_capture_ok = false then open_failure self
    else
      let self := { self with probed_sinkcaps := some env.sinkcaps }
      if gst_caps_is_empty env.sinkcaps then open_failure self
      else
        let self := { self with probed_srccaps := some env.srccaps }
        if gst_caps_is_empty env.srccaps then open_failure self
        else (true, self)

/-- The decoder starts accepting frames: `gst_v4l2_video_dec_start`. -/
def gst_v4l2_video_dec_start (self : GstV4l2VideoDec) : Bool × GstV4l2VideoDec :=
  (true, { self with
    v4l2output := gst_v4l2_object_unlock self.v4l2output
    active := true
    output_flow := GST_FLOW_OK })

/-- The decoder is stopped: `gst_v4l2_video_dec_stop`.  Both assertions come
before anything is stopped. -/
def gst_v4l2_video_dec_stop (self : GstV4l2VideoDec) : Outcome Bool :=
  if self.active ≠ false then Outcome.fault self
  else if self.processing ≠ false then Outcome.fault self
  else
    Outcome.done true { self with
      v4l2output := gst_v4l2_object_stop self.v4l2output
      v4l2capture := gst_v4l2_object_stop self.v4l2capture
      input_state := none }

/-- Modelled from the spec: `gst_v4l2_object_caps_equal` of gstv4l2object.c,
missing here.  A stream description is "compatible" with "the currently
configured input format" when its caps are the caps configured on the queue. -/
def gst_v4l2_object_caps_equal (o : GstV4l2Object) (caps : GstCaps) : Bool :=
  decide (o.caps = some caps)

/-- Modelled from the spec: `gst_v4l2_buffer_pool_flush` of gstv4l2bufferpool.c,
missing here.  "flush() (drops in-flight buffers, queue remains started)": the
call is counted, the queue stays as configured. -/
def gst_v4l2_buffer_pool_flush (o : GstV4l2Object) : GstV4l2Object :=
  { o with pool_flushes := o.pool_flushes + 1 }

/-- Second half of `gst_v4l2_video_dec_set_format`: the output queue is
configured with the caps of the stream description and, on success, the
description becomes the input state.  On failure `input_state` keeps the
pointer it had. -/
def set_format_configure (self : GstV4l2VideoDec) (state : GstVideoCodecState)
    (set_format_ok : Bool) : Bool × GstV4l2VideoDec :=
  let self := { self with
    v4l2output := gst_v4l2_object_set_format self.v4l2output state.caps set_format_ok }
  if set_format_ok then (true, { self with input_state := some state }) else (false, self)

/-- A stream description is presented: `gst_v4l2_video_dec_set_format`.
`set_format_ok` is the answer of `gst_v4l2_object_set_format`, should it be
called. -/
def gst_v4l2_video_dec_set_format (self : GstV4l2VideoDec) (state : GstVideoCodecState)
    (set_format_ok : Bool) : Bool × GstV4l2VideoDec :=
  match self.input_state with
  | some _ =>
    if gst_v4l2_object_caps_equal self.v4l2output state.caps then (true, self)
    else set_format_configure self state set_format_ok
  | none => set_format_configure self state set_format_ok

/-- The decoder is flushed: `gst_v4l2_video_dec_flush`.  `gst_pad_stop_task`
leaves the task of the source pad stopped. -/
def gst_v4l2_video_dec_flush (self : GstV4l2VideoDec) : Bool × GstV4l2VideoDec :=
  let self := { self with task := GST_TASK_STOPPED }
  let self := { self with output_flow := GST_FLOW_OK }
  let self := { self with v4l2output := gst_v4l2_buffer_pool_flush self.v4l2output }
  let self := { self with v4l2capture := gst_v4l2_buffer_pool_flush self.v4l2capture }
  let self := { self with v4l2capture := gst_v4l2_object_unlock_stop self.v4l2capture }
  (true, self)

/-- One enqueue of an empty buffer during `gst_v4l2_video_dec_finish`: `ret`
is the result of `gst_v4l2_buffer_pool_process`, `during` the capture-loop
iterations performed while the call is blocked (the stream lock is released
for the whole loop). -/
structure EnqueueStep where
  during : List LoopEnv
  ret : GstFlowReturn
  deriving DecidableEq, Repr

/-- The `while (ret == GST_FLOW_OK)` loop of `gst_v4l2_video_dec_finish`: one
empty buffer is enqueued per step, and the loop goes on as long as the enqueue
returns Ok.  The value is the first result other than Ok with the state in
which the loop exits; there is no value when the described steps end while
the loop is still running. -/
def finish_loop (self : GstV4l2VideoDec) :
    List EnqueueStep → Option (GstFlowReturn × GstV4l2VideoDec)
  | [] => none
  | step :: steps =>
    let self := { self with
      v4l2output := gst_v4l2_buffer_pool_process self.v4l2output ⟨[]⟩ }
    let self := run_task self step.during
    if step.ret = GST_FLOW_OK then finish_loop self steps else some (step.ret, self)

/-- The decoder is drained: `gst_v4l2_video_dec_finish`.  There is no value
when the described enqueue steps end while the loop is still running. -/
def gst_v4l2_video_dec_finish (self : GstV4l2VideoDec) (steps : List EnqueueStep) :
    Option (Outcome GstFlowReturn) :=
  match self.input_state with
  | none => some (Outcome.done GST_FLOW_OK self)
  | some _ =>
    match finish_loop self steps with
    | none => none
    | some (ret, self) =>
      if self.processing ≠ false then some (Outcome.fault self)
      else
        let ret := if ret = GST_FLOW_FLUSHING then self.output_flow else ret
        some (Outcome.done ret self)

/-- State changes of an element: the enumeration `GstStateChange`. -/
inductive GstStateChange
  | GST_STATE_CHANGE_NULL_TO_READY
  | GST_STATE_CHANGE_READY_TO_PAUSED
  | GST_STATE_CHANGE_PAUSED_TO_PLAYING
  | GST_STATE_CHANGE_PLAYING_TO_PAUSED
  | GST_STATE_CHANGE_PAUSED_TO_READY
  | GST_STATE_CHANGE_READY_TO_NULL
  deriving DecidableEq, Repr

open GstStateChange

/-- The part of `gst_v4l2_video_dec_change_state` that precedes the call of
the parent class: on the change from PAUSED to READY the decoder stops
accepting frames and both queues are unblocked. -/
def gst_v4l2_video_dec_change_state (self : GstV4l2VideoDec) (transition : GstStateChange) :
    GstV4l2VideoDec :=
  if transition = GST_STATE_CHANGE_PAUSED_TO_READY then
    { self with
      active := false
      v4l2output := gst_v4l2_object_unlock self.v4l2output
      v4l2capture := gst_v4l2_object_unlock self.v4l2capture }
  else self

/-! ## Interleavings of the two threads -/

/-- One step of an execution: the streaming thread submits a frame, or the
capture task performs one iteration of its loop. -/
inductive Event
  | submit (frame : GstVideoCodecFrame) (env : HandleFrameEnv)
  | loop (env : LoopEnv)
  deriving DecidableEq, Repr

/-- The frames submitted by a sequence of events, oldest first. -/
def submitted : List Event → List GstVideoCodecFrame
  | [] => []
  | Event.submit frame _ :: evs => frame :: submitted evs
  | Event.loop _ :: evs => submitted evs

/-- The state after a sequence of events.  A fault ends the execution in the
state in which it happened. -/
def run (self : GstV4l2VideoDec) : List Event → GstV4l2VideoDec
  | [] => self
  | Event.submit frame env :: evs =>
    match gst_video_decoder_decode_frame self frame env with
    | Outcome.fault s => s
    | Outcome.done _ s => run s evs
  | Event.loop env :: evs => run (gst_v4l2_video_dec_loop self env) evs

/-- The state an operation leaves behind, whether it returned or faulted. -/
def Outcome.state {α : Type} : Outcome α → GstV4l2VideoDec
  | Outcome.fault s => s
  | Outcome.done _ s => s

/-- Relation between a state and a later one: the later state holds no more
frames (pending or emitted) than the earlier one, and each of its frames has
the sequence number and the timestamp of a frame of the earlier state. -/
def Traces (s s' : GstV4l2VideoDec) : Prop :=
  s'.finished.length + s'.frames.length ≤ s.finished.length + s.frames.length ∧
  ∀ e ∈ s'.finished ++ s'.frames, ∃ g ∈ s.finished ++ s.frames,
    e.system_frame_number = g.system_frame_number ∧ e.pts = g.pts

/-- What the capture task cannot do to the element: it leaves `active`, the
input state, the output state, the dropped frames, the configuration of both
queues and the buffers handed to the output queue alone; it never sets
`processing` and never starts the task. -/
def TaskStep (s s' : GstV4l2VideoDec) : Prop :=
  s'.active = s.active ∧ s'.input_state = s.input_state ∧
  s'.output_state = s.output_state ∧ s'.dropped = s.dropped ∧
  s'.v4l2capture.active = s.v4l2capture.active ∧
  s'.v4l2output.active = s.v4l2output.active ∧
  s'.v4l2output.queued = s.v4l2output.queued ∧
  (s'.processing = true → s.processing = true) ∧
  (s'.task = GST_TASK_STARTED → s.task = GST_TASK_STARTED)

/-- The exit path of one iteration of the capture loop, in the words of the
specification: the iteration leaves when the buffer acquire fails, when the
zero-length buffer is seen, when the device dequeue fails, or when the
emission of the correlated frame fails.  The value is the flow result that
causes the exit, Ok for the zero-length buffer; there is no value when the
iteration does not leave. -/
def loop_exit_cause (self : GstV4l2VideoDec) (env : LoopEnv) : Option GstFlowReturn :=
  if env.acquire_ret ≠ GST_FLOW_OK then some env.acquire_ret
  else if gst_buffer_get_size env.buffer = 0 then some GST_FLOW_OK
  else if env.process_ret ≠ GST_FLOW_OK then some env.process_ret
  else if (gst_v4l2_video_dec_get_oldest_frame self.frames).isSome ∧
      env.finish_ret ≠ GST_FLOW_OK then some env.finish_ret
  else none

/-! ## Concrete states -/

/-- A device queue that is open, configured and not unblocked. -/
def queue_configured : GstV4l2Object :=
  { opened := true, active := true, flushing := false, caps := some ["video/x-h264"],
    set_format_calls := 1, queued := [], pool_flushes := 0 }

/-- A device queue that is open and not configured yet. -/
def queue_opened : GstV4l2Object :=
  { opened := true, active := false, flushing := false, caps := none,
    set_format_calls := 0, queued := [], pool_flushes := 0 }

/-- A device queue that is not open. -/
def queue_closed : GstV4l2Object :=
  { opened := false, active := false, flushing := false, caps := none,
    set_format_calls := 0, queued := [], pool_flushes := 0 }

/-- The frame of the scenarios: timestamp 100, sequence number 1, three bytes
of compressed data. -/
def frame_100_1 : GstVideoCodecFrame :=
  { system_frame_number := 1, pts := 100, input_buffer := some ⟨[7, 7, 7]⟩,
    output_buffer := none }

/-- A second frame: timestamp 150, sequence number 2, two bytes of compressed
data. -/
def frame_150_2 : GstVideoCodecFrame :=
  { system_frame_number := 2, pts := 150, input_buffer := some ⟨[8, 8]⟩,
    output_buffer := none }

/-- A decoder in the middle of a stream, as the base class hands it the frame
(ts=100, seq=1): both queues configured, the capture task running, the frame
already in the pending list. -/
def dec_running : GstV4l2VideoDec :=
  { v4l2output := queue_configured, v4l2capture := queue_configured,
    probed_srccaps := some ["video/x-raw"], probed_sinkcaps := some ["video/x-h264"],
    input_state := some ⟨["video/x-h264"], none⟩,
    active := true, processing := true, output_flow := GST_FLOW_OK,
    frames := [frame_100_1], finished := [], dropped := [], output_state := some ⟨2, 640, 480, 0⟩,
    task := GST_TASK_STARTED }

/-- A decoder whose capture loop has stopped on a device error. -/
def dec_failed : GstV4l2VideoDec :=
  { dec_running with
    processing := false, output_flow := GST_FLOW_ERROR, task := GST_TASK_PAUSED,
    v4l2output := { queue_configured with flushing := true } }

/-- A decoder that was shut down by the state change to READY while its
capture task had already left. -/
def dec_inactive : GstV4l2VideoDec :=
  { dec_running with
    active := false, processing := false, output_flow := GST_FLOW_FLUSHING,
    task := GST_TASK_PAUSED,
    v4l2output := { queue_configured with flushing := true },
    v4l2capture := { queue_configured with flushing := true } }

/-- A decoder that has been opened, configured and started, before its first
frame: no queue is configured yet and nothing is pending. -/
def dec_started : GstV4l2VideoDec :=
  { v4l2output := { queue_opened with flushing := true }, v4l2capture := queue_opened,
    probed_srccaps := some ["video/x-raw"], probed_sinkcaps := some ["video/x-h264"],
    input_state := some ⟨["video/x-h264"], none⟩,
    active := true, processing := false, output_flow := GST_FLOW_OK,
    frames := [], finished := [], dropped := [], output_state := none,
    task := GST_TASK_STOPPED }

/-- The decoder before its first frame, for a stream whose description carries
two bytes of codec data. -/
def dec_started_codec_data : GstV4l2VideoDec :=
  { dec_started with input_state := some ⟨["video/x-h264"], some ⟨[1, 2]⟩⟩ }

/-- A decoder that has not been opened. -/
def dec_closed : GstV4l2VideoDec :=
  { v4l2output := queue_closed, v4l2capture := queue_closed,
    probed_srccaps := none, probed_sinkcaps := none, input_state := none,
    active := false, processing := false, output_flow := GST_FLOW_OK,
    frames := [], finished := [], dropped := [], output_state := none,
    task := GST_TASK_STOPPED }

/-- An environment in which every call succeeds and the capture task performs
no iteration while the stream lock is released. -/
def env_ok : HandleFrameEnv :=
  { set_format_ok := true, header_ret := GST_FLOW_OK, during_header := [],
    setup_format := some ⟨2, 640, 480, 0⟩, negotiate_ok := true, srcpad_flushing := false,
    payload_ret := GST_FLOW_OK, during_payload := [] }

/-- An environment in which the capture task meets the zero-length buffer and
leaves while the input buffer is being enqueued, so that the enqueue is woken
up with Flushing. -/
def env_sentinel_during_payload : HandleFrameEnv :=
  { set_format_ok := true, header_ret := GST_FLOW_OK, during_header := [],
    setup_format := some ⟨2, 640, 480, 0⟩, negotiate_ok := true, srcpad_flushing := false,
    payload_ret := GST_FLOW_FLUSHING,
    during_payload := [⟨GST_FLOW_OK, ⟨[]⟩, GST_FLOW_OK, GST_FLOW_OK⟩] }

/-- A loop iteration that obtains the zero-length buffer. -/
def loop_sentinel : LoopEnv :=
  { acquire_ret := GST_FLOW_OK, buffer := ⟨[]⟩, process_ret := GST_FLOW_OK,
    finish_ret := GST_FLOW_OK }

/-- A loop iteration that obtains a decoded buffer of two bytes and in which
every call succeeds. -/
def loop_decoded : LoopEnv :=
  { acquire_ret := GST_FLOW_OK, buffer := ⟨[9, 9]⟩, process_ret := GST_FLOW_OK,
    finish_ret := GST_FLOW_OK }

/-! ## The correlator picks the first frame with the oldest timestamp -/

/-- Started with a candidate, the `for` loop returns either the candidate,
which is then no younger than any frame visited, or a visited frame that is
strictly older than the candidate and than every frame visited before it, and
no younger than any frame visited after it. -/
theorem get_oldest_frame_loop_some (l : List GstVideoCodecFrame) :
    ∀ c : GstVideoCodecFrame, ∃ r, get_oldest_frame_loop (some c) l = some r ∧
      ((r = c ∧ ∀ g ∈ l, c.pts ≤ g.pts) ∨
        ∃ pre post, l = pre ++ r :: post ∧ r.pts < c.pts ∧
          (∀ g ∈ pre, r.pts < g.pts) ∧ ∀ g ∈ post, r.pts ≤ g.pts) := by
  induction l with
  | nil => intro c; exact ⟨c, rfl, Or.inl ⟨rfl, by simp⟩⟩
  | cons f l ih =>
    intro c
    by_cases h : c.pts > f.pts
    · obtain ⟨r, hr, hcase⟩ := ih f
      refine ⟨r, by simp [get_oldest_frame_loop, h, hr], Or.inr ?_⟩
      rcases hcase with ⟨rfl, hmin⟩ | ⟨pre, post, hl, hlt, hpre, hpost⟩
      · exact ⟨[], l, rfl, h, by simp, hmin⟩
      · refine ⟨f :: pre, post, by simp [hl], by omega, ?_, hpost⟩
        intro g hg
        rcases List.mem_cons.mp hg with rfl | hg
        · exact hlt
        · exact hpre g hg
    · obtain ⟨r, hr, hcase⟩ := ih c
      refine ⟨r, by simp [get_oldest_frame_loop, h, hr], ?_⟩
      rcases hcase with ⟨rfl, hmin⟩ | ⟨pre, post, hl, hlt, hpre, hpost⟩
      · refine Or.inl ⟨rfl, ?_⟩
        intro g hg
        rcases List.mem_cons.mp hg with rfl | hg
        · omega
        · exact hmin g hg
      · refine Or.inr ⟨f :: pre, post, by simp [hl], hlt, ?_, hpost⟩
        intro g hg
        rcases List.mem_cons.mp hg with rfl | hg
        · omega
        · exact hpre g hg

/-- On a non-empty list the correlator returns a frame that splits the list:
every frame before it is strictly younger, every frame after it is no older. -/
theorem get_oldest_frame_split (l : List GstVideoCodecFrame) (hl : l ≠ []) :
    ∃ pre f post, l = pre ++ f :: post ∧
      gst_v4l2_video_dec_get_oldest_frame l = some f ∧
      (∀ g ∈ pre, f.pts < g.pts) ∧ ∀ g ∈ post, f.pts ≤ g.pts := by
  cases l with
  | nil => exact absurd rfl hl
  | cons c l =>
    obtain ⟨r, hr, hcase⟩ := get_oldest_frame_loop_some l c
    have hres : gst_v4l2_video_dec_get_oldest_frame (c :: l) = some r := by
      simp [gst_v4l2_video_dec_get_oldest_frame, get_oldest_frame_loop, hr]
    rcases hcase with ⟨rfl, hmin⟩ | ⟨pre, post, hl', hlt, hpre, hpost⟩
    · exact ⟨[], r, l, rfl, hres, by simp, hmin⟩
    · refine ⟨c :: pre, r, post, by simp [hl'], hres, ?_, hpost⟩
      intro g hg
      rcases List.mem_cons.mp hg with rfl | hg
      · exact hlt
      · exact hpre g hg

/-- Claim C1.  The correlator returns no frame exactly when the pending list is
empty; otherwise it returns a member of the list whose timestamp is less than
or equal to the timestamp of every frame in the list.  With pending frames
(ts=200, seq=2) and (ts=150, seq=3) the frame returned is seq=3. -/
theorem C1_get_oldest_frame_minimum (l : List GstVideoCodecFrame) :
    ((gst_v4l2_video_dec_get_oldest_frame l = none ∧ l = []) ∨
      (l ≠ [] ∧ ∃ f, gst_v4l2_video_dec_get_oldest_frame l = some f ∧ f ∈ l ∧
        ∀ g ∈ l, f.pts ≤ g.pts)) ∧
    gst_v4l2_video_dec_get_oldest_frame
        [⟨2, 200, some ⟨[1]⟩, none⟩, ⟨3, 150, some ⟨[2]⟩, none⟩]
      = some ⟨3, 150, some ⟨[2]⟩, none⟩ := by
  refine ⟨?_, by decide⟩
  by_cases hl : l = []
  · subst hl
    exact Or.inl ⟨rfl, rfl⟩
  · obtain ⟨pre, f, post, hsplit, hres, hpre, hpost⟩ := get_oldest_frame_split l hl
    refine Or.inr ⟨hl, f, hres, by simp [hsplit], ?_⟩
    intro g hg
    rw [hsplit] at hg
    rcases List.mem_append.mp hg with hg | hg
    · exact Nat.le_of_lt (hpre g hg)
    · rcases List.mem_cons.mp hg with rfl | hg
      · exact Nat.le_refl _
      · exact hpost g hg

/-- Claim C2, refuted as stated.  Two pending frames with the same timestamp
100, listed with sequence numbers 3 then 1: the correlator returns sequence 3,
although the frame with sequence 1 has the same timestamp and a smaller
sequence number. -/
theorem C2_tie_returns_first_listed_not_lowest_sequence :
    gst_v4l2_video_dec_get_oldest_frame
        [⟨3, 100, some ⟨[1]⟩, none⟩, ⟨1, 100, some ⟨[2]⟩, none⟩]
      = some ⟨3, 100, some ⟨[1]⟩, none⟩ ∧
    ¬ ∀ l : List GstVideoCodecFrame, l ≠ [] →
      ∃ f, gst_v4l2_video_dec_get_oldest_frame l = some f ∧
        ∀ g ∈ l, g.pts = f.pts → f.system_frame_number ≤ g.system_frame_number := by
  refine ⟨by decide, ?_⟩
  intro h
  obtain ⟨f, hf, hmin⟩ :=
    h [⟨3, 100, some ⟨[1]⟩, none⟩, ⟨1, 100, some ⟨[2]⟩, none⟩] (by simp)
  have hf3 : f = ⟨3, 100, some ⟨[1]⟩, none⟩ := by
    have h3 : gst_v4l2_video_dec_get_oldest_frame
        [⟨3, 100, some ⟨[1]⟩, none⟩, ⟨1, 100, some ⟨[2]⟩, none⟩]
      = some ⟨3, 100, some ⟨[1]⟩, none⟩ := by decide
    rw [h3] at hf
    exact (Option.some.inj hf).symm
  subst hf3
  have := hmin ⟨1, 100, some ⟨[2]⟩, none⟩ (by simp) rfl
  simp at this

/-- Claim C2, amended.  Among the frames that share the minimal timestamp the
correlator returns the one listed first: every frame listed before the
returned one has a strictly greater timestamp and every frame listed after it
has a timestamp greater than or equal.  When the pending list is in increasing
order of system frame number, the returned frame therefore has the smallest
system frame number among the frames with the minimal timestamp. -/
theorem C2_get_oldest_frame_first_among_ties (l : List GstVideoCodecFrame) (hl : l ≠ []) :
    ∃ pre f post, l = pre ++ f :: post ∧
      gst_v4l2_video_dec_get_oldest_frame l = some f ∧
      (∀ g ∈ pre, f.pts < g.pts) ∧ (∀ g ∈ post, f.pts ≤ g.pts) ∧
      (l.Pairwise (fun a b => a.system_frame_number < b.system_frame_number) →
        ∀ g ∈ l, g.pts = f.pts → f.system_frame_number ≤ g.system_frame_number) := by
  obtain ⟨pre, f, post, hsplit, hres, hpre, hpost⟩ := get_oldest_frame_split l hl
  refine ⟨pre, f, post, hsplit, hres, hpre, hpost, ?_⟩
  intro hsorted g hg hpts
  rw [hsplit] at hg hsorted
  rcases List.mem_append.mp hg with hg | hg
  · have := hpre g hg
    omega
  · rcases List.mem_cons.mp hg with rfl | hg
    · exact Nat.le_refl _
    · have hpw := (List.pairwise_append.mp hsorted).2.1
      exact Nat.le_of_lt ((List.pairwise_cons.mp hpw).1 g hg)

/-- Claim C2, amended, at a concrete list: timestamps 100, 100 and 150 with
sequence numbers 1, 3 and 4. -/
theorem C2_get_oldest_frame_first_among_ties_witness :
    ([⟨1, 100, none, none⟩, ⟨3, 100, none, none⟩, ⟨4, 150, none, none⟩] :
        List GstVideoCodecFrame) ≠ [] ∧
    ∃ pre f post,
      ([⟨1, 100, none, none⟩, ⟨3, 100, none, none⟩, ⟨4, 150, none, none⟩] :
        List GstVideoCodecFrame) = pre ++ f :: post ∧
      gst_v4l2_video_dec_get_oldest_frame
        [⟨1, 100, none, none⟩, ⟨3, 100, none, none⟩, ⟨4, 150, none, none⟩] = some f ∧
      (∀ g ∈ pre, f.pts < g.pts) ∧ (∀ g ∈ post, f.pts ≤ g.pts) ∧
      (([⟨1, 100, none, none⟩, ⟨3, 100, none, none⟩, ⟨4, 150, none, none⟩] :
        List GstVideoCodecFrame).Pairwise
          (fun a b => a.system_frame_number < b.system_frame_number) →
        ∀ g ∈ ([⟨1, 100, none, none⟩, ⟨3, 100, none, none⟩, ⟨4, 150, none, none⟩] :
            List GstVideoCodecFrame),
          g.pts = f.pts → f.system_frame_number ≤ g.system_frame_number) :=
  ⟨by simp, C2_get_oldest_frame_first_among_ties _ (by simp)⟩

/-! ## Frame submission: early exits -/

/-- Claim C3.  When the decoder is not active, a submission returns Flushing
and drops the frame, and that is all: neither queue changes (no format set,
nothing enqueued), the capture task is not started, `processing` and
`output_flow` keep their values and nothing is emitted. -/
theorem C3_submit_inactive_is_flushing (s : GstV4l2VideoDec) (frame : GstVideoCodecFrame)
    (env : HandleFrameEnv) (hactive : s.active = false) :
    gst_v4l2_video_dec_handle_frame s frame env
      = Outcome.done (GST_FLOW_FLUSHING, frame) (gst_video_decoder_drop_frame s frame) ∧
    gst_video_decoder_drop_frame s frame
      = { s with
          frames := gst_video_decoder_release_frame s.frames frame
          dropped := s.dropped ++ [frame] } ∧
    (gst_video_decoder_drop_frame s frame).v4l2output = s.v4l2output ∧
    (gst_video_decoder_drop_frame s frame).v4l2capture = s.v4l2capture ∧
    (gst_video_decoder_drop_frame s frame).task = s.task ∧
    (gst_video_decoder_drop_frame s frame).processing = s.processing ∧
    (gst_video_decoder_drop_frame s frame).output_flow = s.output_flow ∧
    (gst_video_decoder_drop_frame s frame).finished = s.finished := by
  refine ⟨?_, rfl, rfl, rfl, rfl, rfl, rfl, rfl⟩
  simp [gst_v4l2_video_dec_handle_frame, hactive, handle_frame_flushing, handle_frame_drop]

/-- Claim C3 at a concrete input: the decoder shut down by the state change,
the frame (ts=100, seq=1). -/
theorem C3_submit_inactive_is_flushing_witness :
    dec_inactive.active = false ∧
    gst_v4l2_video_dec_handle_frame dec_inactive frame_100_1 env_ok
      = Outcome.done (GST_FLOW_FLUSHING, frame_100_1)
          (gst_video_decoder_drop_frame dec_inactive frame_100_1) :=
  ⟨rfl, (C3_submit_inactive_is_flushing dec_inactive frame_100_1 env_ok rfl).1⟩

/-- Claim C4.  When the decoder is active, both queues are configured, the
capture task is not processing and a terminal result other than Ok is
remembered, a submission returns exactly that result and drops the frame:
nothing is enqueued to the output queue and the capture task is not restarted
(`processing` stays false, the task keeps its state). -/
theorem C4_submit_after_terminal_error (s : GstV4l2VideoDec) (frame : GstVideoCodecFrame)
    (env : HandleFrameEnv) (hactive : s.active = true)
    (hout : s.v4l2output.active = true) (hcap : s.v4l2capture.active = true)
    (hproc : s.processing = false) (hflow : s.output_flow ≠ GST_FLOW_OK) :
    gst_v4l2_video_dec_handle_frame s frame env
      = Outcome.done (s.output_flow, frame) (gst_video_decoder_drop_frame s frame) ∧
    (gst_video_decoder_drop_frame s frame).dropped = s.dropped ++ [frame] ∧
    (gst_video_decoder_drop_frame s frame).v4l2output = s.v4l2output ∧
    (gst_video_decoder_drop_frame s frame).processing = false ∧
    (gst_video_decoder_drop_frame s frame).task = s.task ∧
    (gst_video_decoder_drop_frame s frame).output_flow = s.output_flow := by
  refine ⟨?_, rfl, rfl, hproc, rfl, rfl⟩
  simp [gst_v4l2_video_dec_handle_frame, handle_frame_capture, handle_frame_process,
    hactive, hout, hcap, hproc, hflow, handle_frame_drop]

/-- Claim C4 at a concrete input: the capture loop has stopped on a device
error, the next submission returns that error. -/
theorem C4_submit_after_terminal_error_witness :
    (dec_failed.active = true ∧ dec_failed.v4l2output.active = true ∧
      dec_failed.v4l2capture.active = true ∧ dec_failed.processing = false ∧
      dec_failed.output_flow ≠ GST_FLOW_OK) ∧
    gst_v4l2_video_dec_handle_frame dec_failed frame_100_1 env_ok
      = Outcome.done (GST_FLOW_ERROR, frame_100_1)
          (gst_video_decoder_drop_frame dec_failed frame_100_1) :=
  ⟨by decide,
    (C4_submit_after_terminal_error dec_failed frame_100_1 env_ok rfl rfl rfl rfl
      (by decide)).1⟩

/-! ## Frame submission: the enqueue of the input buffer -/

/-- One iteration of the capture loop hands nothing to the output queue. -/
theorem loop_output_queued (s : GstV4l2VideoDec) (env : LoopEnv) :
    (gst_v4l2_video_dec_loop s env).v4l2output.queued = s.v4l2output.queued := by
  unfold gst_v4l2_video_dec_loop
  simp only []
  split_ifs <;> first
    | rfl
    | (split <;> rfl)

/-- The capture task hands nothing to the output queue. -/
theorem run_task_output_queued (envs : List LoopEnv) :
    ∀ s : GstV4l2VideoDec, (run_task s envs).v4l2output.queued = s.v4l2output.queued := by
  induction envs with
  | nil => intro s; rfl
  | cons env envs ih =>
    intro s
    unfold run_task
    split_ifs
    · rw [ih, loop_output_queued]
    · rfl

/-- Claim C5, refuted as stated.  The decoder is in the middle of a stream
with no error remembered (`output_flow` is Ok).  While the input buffer is
being enqueued the capture task meets the zero-length buffer and leaves, which
wakes the enqueue up with Flushing.  The submission returns Ok, not Flushing,
and still no error is remembered afterwards. -/
theorem C5_flushing_without_error_returns_ok :
    dec_running.output_flow = GST_FLOW_OK ∧
    env_sentinel_during_payload.payload_ret = GST_FLOW_FLUSHING ∧
    ∃ s', gst_v4l2_video_dec_handle_frame dec_running frame_100_1 env_sentinel_during_payload
        = Outcome.done (GST_FLOW_OK, { frame_100_1 with input_buffer := none }) s' ∧
      s'.output_flow = GST_FLOW_OK ∧ s'.processing = false := by
  refine ⟨rfl, rfl, ?_⟩
  refine ⟨_, rfl, rfl, rfl⟩

/-- The enqueue of the input buffer, from whatever state it is reached: the
buffer is handed to the output queue, the frame loses it, and a Flushing
result is replaced by `output_flow` exactly when the capture task is not
processing once the enqueue has returned. -/
theorem handle_frame_enqueue_some (s : GstV4l2VideoDec) (frame : GstVideoCodecFrame)
    (env : HandleFrameEnv) (ret₀ : GstFlowReturn) (b : GstBuffer)
    (hbuf : frame.input_buffer = some b) :
    ∃ ret s', handle_frame_enqueue s frame env ret₀
        = Outcome.done (ret, { frame with input_buffer := none }) s' ∧
      s'.v4l2output.queued = s.v4l2output.queued ++ [b] ∧
      ret = (if env.payload_ret = GST_FLOW_FLUSHING then
              (if s'.processing = false then s'.output_flow else GST_FLOW_FLUSHING)
             else env.payload_ret) := by
  simp only [handle_frame_enqueue, hbuf]
  refine ⟨_, _, rfl, ?_, ?_⟩
  · simp [run_task_output_queued, gst_v4l2_buffer_pool_process]
  · split_ifs <;> first | rfl | assumption

/-- Claim C5, amended.  Wherever the input buffer of a frame is enqueued to the
output queue (first conjunct: from any state), the value returned is: the
value of `output_flow`, whatever it is, when the enqueue reports Flushing and
the capture task is not processing at that moment; Flushing when the enqueue
reports Flushing and the capture task is still processing; the result of the
enqueue unchanged in every other case.  Second conjunct: a submission to an
active decoder with both queues configured, whose capture task is processing
or has stopped without an error, reaches that enqueue and returns that value. -/
theorem C5_payload_flushing_folded_when_not_processing (s : GstV4l2VideoDec)
    (frame : GstVideoCodecFrame) (env : HandleFrameEnv) (b : GstBuffer)
    (hactive : s.active = true) (hout : s.v4l2output.active = true)
    (hcap : s.v4l2capture.active = true)
    (hgo : s.processing = true ∨ s.output_flow = GST_FLOW_OK)
    (hbuf : frame.input_buffer = some b) :
    (∀ (s₀ : GstV4l2VideoDec) (ret₀ : GstFlowReturn),
      ∃ ret s', handle_frame_enqueue s₀ frame env ret₀
          = Outcome.done (ret, { frame with input_buffer := none }) s' ∧
        s'.v4l2output.queued = s₀.v4l2output.queued ++ [b] ∧
        ret = (if env.payload_ret = GST_FLOW_FLUSHING then
                (if s'.processing = false then s'.output_flow else GST_FLOW_FLUSHING)
               else env.payload_ret)) ∧
    ∃ ret s', gst_v4l2_video_dec_handle_frame s frame env
        = Outcome.done (ret, { frame with input_buffer := none }) s' ∧
      s'.v4l2output.queued = s.v4l2output.queued ++ [b] ∧
      ret = (if env.payload_ret = GST_FLOW_FLUSHING then
              (if s'.processing = false then s'.output_flow else GST_FLOW_FLUSHING)
             else env.payload_ret) := by
  refine ⟨fun s₀ ret₀ => handle_frame_enqueue_some s₀ frame env ret₀ b hbuf, ?_⟩
  have hguard : ¬ (s.processing = false ∧ s.output_flow ≠ GST_FLOW_OK) := by
    rintro ⟨hp, hf⟩
    rcases hgo with h | h
    · simp [hp] at h
    · exact hf h
  simp only [gst_v4l2_video_dec_handle_frame, handle_frame_capture, handle_frame_process,
    hactive, hout, hcap, hguard, if_false, Bool.true_eq_false]
  by_cases hp : s.processing = false
  · obtain ⟨ret, s', h, hq, hr⟩ :=
      handle_frame_enqueue_some (handle_frame_start_task s) frame env GST_FLOW_OK b hbuf
    refine ⟨ret, s', ?_, ?_, hr⟩
    · simp only [hp, if_true]
      exact h
    · rw [hq]
      rfl
  · obtain ⟨ret, s', h, hq, hr⟩ := handle_frame_enqueue_some s frame env GST_FLOW_OK b hbuf
    refine ⟨ret, s', ?_, hq, hr⟩
    simp only [hp, if_false]
    exact h

/-- Claim C5, amended, at a concrete input: the running decoder, an enqueue
that succeeds. -/
theorem C5_payload_flushing_folded_when_not_processing_witness :
    (dec_running.active = true ∧ dec_running.v4l2output.active = true ∧
      dec_running.v4l2capture.active = true ∧
      (dec_running.processing = true ∨ dec_running.output_flow = GST_FLOW_OK) ∧
      frame_100_1.input_buffer = some ⟨[7, 7, 7]⟩) ∧
    ∃ ret s', gst_v4l2_video_dec_handle_frame dec_running frame_100_1 env_ok
        = Outcome.done (ret, { frame_100_1 with input_buffer := none }) s' ∧
      s'.v4l2output.queued = dec_running.v4l2output.queued ++ [⟨[7, 7, 7]⟩] ∧
      ret = (if env_ok.payload_ret = GST_FLOW_FLUSHING then
              (if s'.processing = false then s'.output_flow else GST_FLOW_FLUSHING)
             else env_ok.payload_ret) :=
  ⟨⟨rfl, rfl, rfl, Or.inl rfl, rfl⟩,
    (C5_payload_flushing_folded_when_not_processing dec_running frame_100_1 env_ok ⟨[7, 7, 7]⟩
      rfl rfl rfl (Or.inl rfl) rfl).2⟩

/-! ## Capture loop: the zero-length buffer and the spurious buffer -/

/-- Claim C6.  A loop iteration that obtains a zero-length buffer emits no
frame and moves the loop to Stopped: the resulting state is the entry state
with `processing` false, the task paused, the output queue unblocked and Ok
recorded; the pending list, the emitted frames and the capture queue are
untouched (neither the correlator nor `finish_frame` has run). -/
theorem C6_zero_length_buffer_stops_loop (s : GstV4l2VideoDec) (env : LoopEnv)
    (hacq : env.acquire_ret = GST_FLOW_OK) (hsize : gst_buffer_get_size env.buffer = 0) :
    gst_v4l2_video_dec_loop s env
      = { s with
          output_flow := GST_FLOW_OK
          processing := false
          v4l2output := { s.v4l2output with flushing := true }
          task := GST_TASK_PAUSED } ∧
    (gst_v4l2_video_dec_loop s env).finished = s.finished ∧
    (gst_v4l2_video_dec_loop s env).frames = s.frames ∧
    (gst_v4l2_video_dec_loop s env).v4l2capture = s.v4l2capture ∧
    (gst_v4l2_video_dec_loop s env).processing = false ∧
    (gst_v4l2_video_dec_loop s env).task = GST_TASK_PAUSED := by
  have h : gst_v4l2_video_dec_loop s env
      = { s with
          output_flow := GST_FLOW_OK
          processing := false
          v4l2output := { s.v4l2output with flushing := true }
          task := GST_TASK_PAUSED } := by
    simp [gst_v4l2_video_dec_loop, hacq, hsize, loop_beach, gst_v4l2_object_unlock]
  refine ⟨h, ?_, ?_, ?_, ?_, ?_⟩ <;> rw [h]

/-- Claim C6 at a concrete input: the running decoder with one pending frame
meets the zero-length buffer. -/
theorem C6_zero_length_buffer_stops_loop_witness :
    (loop_sentinel.acquire_ret = GST_FLOW_OK ∧ gst_buffer_get_size loop_sentinel.buffer = 0) ∧
    (gst_v4l2_video_dec_loop dec_running loop_sentinel).finished = [] ∧
    (gst_v4l2_video_dec_loop dec_running loop_sentinel).frames = [frame_100_1] ∧
    (gst_v4l2_video_dec_loop dec_running loop_sentinel).processing = false ∧
    (gst_v4l2_video_dec_loop dec_running loop_sentinel).task = GST_TASK_PAUSED :=
  have h := C6_zero_length_buffer_stops_loop dec_running loop_sentinel rfl rfl
  ⟨⟨rfl, rfl⟩, h.2.1, h.2.2.1, h.2.2.2.2.1, h.2.2.2.2.2⟩

/-- Claim C7.  A loop iteration that dequeues a non-empty decoded buffer
successfully while nothing is pending discards the buffer and goes on: the
resulting state is the entry state except that the buffer went through the
capture pool; no frame is emitted, the pending list stays empty, `processing`
and `output_flow` keep their values and the task is not paused. -/
theorem C7_spurious_output_is_discarded (s : GstV4l2VideoDec) (env : LoopEnv)
    (hacq : env.acquire_ret = GST_FLOW_OK) (hsize : gst_buffer_get_size env.buffer ≠ 0)
    (hproc : env.process_ret = GST_FLOW_OK) (hpending : s.frames = []) :
    gst_v4l2_video_dec_loop s env
      = { s with v4l2capture := gst_v4l2_buffer_pool_process s.v4l2capture env.buffer } ∧
    (gst_v4l2_video_dec_loop s env).finished = s.finished ∧
    (gst_v4l2_video_dec_loop s env).frames = [] ∧
    (gst_v4l2_video_dec_loop s env).processing = s.processing ∧
    (gst_v4l2_video_dec_loop s env).output_flow = s.output_flow ∧
    (gst_v4l2_video_dec_loop s env).task = s.task ∧
    (gst_v4l2_video_dec_loop s env).v4l2output = s.v4l2output := by
  have h : gst_v4l2_video_dec_loop s env
      = { s with v4l2capture := gst_v4l2_buffer_pool_process s.v4l2capture env.buffer } := by
    simp [gst_v4l2_video_dec_loop, hacq, hsize, hproc, hpending,
      gst_v4l2_video_dec_get_oldest_frame, get_oldest_frame_loop]
  refine ⟨h, ?_, ?_, ?_, ?_, ?_, ?_⟩ <;> rw [h]
  exact hpending

/-- Claim C7 at a concrete input: the running decoder with nothing pending
receives a decoded buffer of two bytes. -/
theorem C7_spurious_output_is_discarded_witness :
    (loop_decoded.acquire_ret = GST_FLOW_OK ∧ gst_buffer_get_size loop_decoded.buffer ≠ 0 ∧
      loop_decoded.process_ret = GST_FLOW_OK ∧
      ({ dec_running with frames := [] } : GstV4l2VideoDec).frames = []) ∧
    (gst_v4l2_video_dec_loop { dec_running with frames := [] } loop_decoded).finished = [] ∧
    (gst_v4l2_video_dec_loop { dec_running with frames := [] } loop_decoded).processing = true ∧
    (gst_v4l2_video_dec_loop { dec_running with frames := [] } loop_decoded).task
      = GST_TASK_STARTED :=
  have h := C7_spurious_output_is_discarded { dec_running with frames := [] } loop_decoded
    rfl (by decide) rfl rfl
  ⟨⟨rfl, by decide, rfl, rfl⟩, h.2.1, h.2.2.2.1, h.2.2.2.2.2.1⟩

/-! ## No frame is emitted that was not submitted -/

/-- A step that touches neither the pending list nor the emitted frames. -/
theorem traces_of_eq {s s' : GstV4l2VideoDec} (hframes : s'.frames = s.frames)
    (hfinished : s'.finished = s.finished) : Traces s s' := by
  refine ⟨by rw [hframes, hfinished], ?_⟩
  intro e he
  rw [hframes, hfinished] at he
  exact ⟨e, he, rfl, rfl⟩

/-- Steps compose. -/
theorem traces_trans {s₁ s₂ s₃ : GstV4l2VideoDec} (h₁₂ : Traces s₁ s₂) (h₂₃ : Traces s₂ s₃) :
    Traces s₁ s₃ := by
  refine ⟨Nat.le_trans h₂₃.1 h₁₂.1, ?_⟩
  intro e he
  obtain ⟨g, hg, hn, hp⟩ := h₂₃.2 e he
  obtain ⟨g', hg', hn', hp'⟩ := h₁₂.2 g hg
  exact ⟨g', hg', hn.trans hn', hp.trans hp'⟩

/-- A frame that leaves the pending list without being emitted. -/
theorem traces_drop_frame (s : GstV4l2VideoDec) (frame : GstVideoCodecFrame) :
    Traces s (gst_video_decoder_drop_frame s frame) := by
  refine ⟨?_, ?_⟩
  · have := List.length_eraseP_le (p := fun f =>
      decide (f.system_frame_number = frame.system_frame_number)) s.frames
    simp only [gst_video_decoder_drop_frame, gst_video_decoder_release_frame]
    omega
  · intro e he
    simp only [gst_video_decoder_drop_frame, gst_video_decoder_release_frame,
      List.mem_append] at he
    refine ⟨e, ?_, rfl, rfl⟩
    rcases he with he | he
    · exact List.mem_append.mpr (Or.inl he)
    · exact List.mem_append.mpr (Or.inr (List.mem_of_mem_eraseP he))

/-- A store to the input buffer of a frame changes neither a sequence number
nor a timestamp. -/
theorem traces_set_input_buffer (s s' : GstV4l2VideoDec) (frame : GstVideoCodecFrame)
    (b : Option GstBuffer) (hframes : s'.frames = set_input_buffer s.frames frame b)
    (hfinished : s'.finished = s.finished) : Traces s s' := by
  refine ⟨by simp [hframes, hfinished, set_input_buffer], ?_⟩
  intro e he
  rw [hframes, hfinished, List.mem_append] at he
  rcases he with he | he
  · exact ⟨e, List.mem_append.mpr (Or.inl he), rfl, rfl⟩
  · simp only [set_input_buffer, List.mem_map] at he
    obtain ⟨g, hg, rfl⟩ := he
    refine ⟨g, List.mem_append.mpr (Or.inr hg), ?_, ?_⟩ <;> split_ifs <;> rfl

/-- The oldest pending frame is emitted: it moves from the pending list to the
emitted frames with its sequence number and timestamp. -/
theorem traces_finish_oldest (s : GstV4l2VideoDec) (frame : GstVideoCodecFrame)
    (b : Option GstBuffer)
    (hold : gst_v4l2_video_dec_get_oldest_frame s.frames = some frame) :
    Traces s (gst_video_decoder_finish_frame s { frame with output_buffer := b }) := by
  have hne : s.frames ≠ [] := by
    intro h
    rw [h] at hold
    simp [gst_v4l2_video_dec_get_oldest_frame, get_oldest_frame_loop] at hold
  obtain ⟨pre, f, post, hsplit, hres, -, -⟩ := get_oldest_frame_split s.frames hne
  have hf : f = frame := Option.some.inj (hres.symm.trans hold)
  subst hf
  have hmem : f ∈ s.frames := by rw [hsplit]; simp
  have hlen : 0 < s.frames.length := List.length_pos_of_mem hmem
  have herase := List.length_eraseP_of_mem (p := fun g =>
    decide (g.system_frame_number = f.system_frame_number)) hmem (by simp)
  refine ⟨?_, ?_⟩
  · simp only [gst_video_decoder_finish_frame, gst_video_decoder_release_frame,
      List.length_append, List.length_singleton]
    omega
  · intro e he
    simp only [gst_video_decoder_finish_frame, gst_video_decoder_release_frame,
      List.mem_append, List.mem_singleton] at he
    rcases he with (he | rfl) | he
    · exact ⟨e, List.mem_append.mpr (Or.inl he), rfl, rfl⟩
    · exact ⟨f, List.mem_append.mpr (Or.inr hmem), rfl, rfl⟩
    · exact ⟨e, List.mem_append.mpr (Or.inr (List.mem_of_mem_eraseP he)), rfl, rfl⟩

/-- One iteration of the capture loop emits at most the oldest pending frame. -/
theorem traces_loop (s : GstV4l2VideoDec) (env : LoopEnv) :
    Traces s (gst_v4l2_video_dec_loop s env) := by
  unfold gst_v4l2_video_dec_loop
  simp only []
  have hstart : Traces s
      { s with v4l2capture := gst_v4l2_buffer_pool_process s.v4l2capture env.buffer } :=
    traces_of_eq rfl rfl
  split_ifs with h1 h2 h3 h4
  · exact traces_of_eq rfl rfl
  · exact traces_of_eq rfl rfl
  · exact traces_of_eq rfl rfl
  · split
    · rename_i frame hold
      exact traces_trans hstart (traces_trans
        (traces_finish_oldest _ frame (some env.buffer) hold) (traces_of_eq rfl rfl))
    · exact traces_of_eq rfl rfl
  · split
    · rename_i frame hold
      exact traces_trans hstart (traces_finish_oldest _ frame (some env.buffer) hold)
    · exact traces_of_eq rfl rfl

/-- The capture task emits only pending frames. -/
theorem traces_run_task (envs : List LoopEnv) :
    ∀ s : GstV4l2VideoDec, Traces s (run_task s envs) := by
  induction envs with
  | nil => intro s; exact traces_of_eq rfl rfl
  | cons env envs ih =>
    intro s
    unfold run_task
    split_ifs
    · exact traces_trans (traces_loop s env) (ih _)
    · exact traces_of_eq rfl rfl

/-- The end of a submission emits only pending frames. -/
theorem traces_handle_frame_enqueue (s : GstV4l2VideoDec) (frame : GstVideoCodecFrame)
    (env : HandleFrameEnv) (ret : GstFlowReturn) :
    Traces s (handle_frame_enqueue s frame env ret).state := by
  unfold handle_frame_enqueue
  split
  · rename_i input_buffer _
    have hqueue : Traces s
        { s with v4l2output := gst_v4l2_buffer_pool_process s.v4l2output input_buffer } :=
      traces_of_eq rfl rfl
    exact traces_trans hqueue (traces_trans (traces_run_task env.during_payload _)
      (traces_set_input_buffer _ _ frame none rfl rfl))
  · exact traces_of_eq rfl rfl

/-- Starting the capture task and enqueuing emits only pending frames. -/
theorem traces_handle_frame_process (s : GstV4l2VideoDec) (frame : GstVideoCodecFrame)
    (env : HandleFrameEnv) (ret : GstFlowReturn) :
    Traces s (handle_frame_process s frame env ret).state := by
  unfold handle_frame_process
  split_ifs with hguard hproc
  · exact traces_drop_frame s frame
  · have hstart : Traces s (handle_frame_start_task s) := traces_of_eq rfl rfl
    exact traces_trans hstart (traces_handle_frame_enqueue _ frame env ret)
  · exact traces_handle_frame_enqueue s frame env ret

/-- Sending the header and negotiating emits only pending frames. -/
theorem traces_handle_frame_negotiate (s : GstV4l2VideoDec) (frame : GstVideoCodecFrame)
    (env : HandleFrameEnv) (codec_data : GstBuffer) :
    Traces s (handle_frame_negotiate s frame env codec_data).state := by
  have hqueue : Traces s
      { s with
        v4l2output := gst_v4l2_buffer_pool_process
          (gst_v4l2_object_unlock_stop s.v4l2output) codec_data } :=
    traces_of_eq rfl rfl
  have hsent := traces_trans hqueue (traces_run_task env.during_header _)
  unfold handle_frame_negotiate
  simp only []
  split
  · exact traces_trans hsent (traces_trans (traces_of_eq rfl rfl) (traces_drop_frame _ frame))
  · split_ifs
    · exact traces_trans hsent
        (traces_trans (traces_of_eq rfl rfl) (traces_drop_frame _ frame))
    · exact traces_trans hsent
        (traces_trans (traces_of_eq rfl rfl) (traces_drop_frame _ frame))
    · exact traces_trans hsent
        (traces_trans (traces_of_eq rfl rfl) (traces_handle_frame_process _ frame env _))

/-- The first-frame part of a submission emits only pending frames. -/
theorem traces_handle_frame_capture (s : GstV4l2VideoDec) (frame : GstVideoCodecFrame)
    (env : HandleFrameEnv) : Traces s (handle_frame_capture s frame env).state := by
  unfold handle_frame_capture
  split_ifs
  · split
    · exact traces_of_eq rfl rfl
    · split
      · exact traces_handle_frame_negotiate s frame env _
      · have hstore : Traces s { s with frames := set_input_buffer s.frames frame none } :=
          traces_set_input_buffer _ _ frame none rfl rfl
        simp only []
        split
        · exact hstore
        · exact traces_trans hstore (traces_handle_frame_negotiate _ _ env _)
  · exact traces_handle_frame_process s frame env _

/-- A submission emits only pending frames and adds none. -/
theorem traces_handle_frame (s : GstV4l2VideoDec) (frame : GstVideoCodecFrame)
    (env : HandleFrameEnv) : Traces s (gst_v4l2_video_dec_handle_frame s frame env).state := by
  unfold gst_v4l2_video_dec_handle_frame
  split_ifs
  · exact traces_drop_frame s frame
  · split
    · exact traces_of_eq rfl rfl
    · exact traces_trans (traces_of_eq rfl rfl) (traces_drop_frame _ frame)
  · split
    · exact traces_of_eq rfl rfl
    · exact traces_trans (traces_of_eq rfl rfl) (traces_handle_frame_capture _ frame env)
  · exact traces_handle_frame_capture s frame env

/-- The base class adds the frame to the pending list and submits it: the
state afterwards holds at most one frame more, and each of its frames is the
new frame or a frame of the state before. -/
theorem decode_frame_bound (s : GstV4l2VideoDec) (frame : GstVideoCodecFrame)
    (env : HandleFrameEnv) :
    (gst_video_decoder_decode_frame s frame env).state.finished.length +
        (gst_video_decoder_decode_frame s frame env).state.frames.length
      ≤ s.finished.length + s.frames.length + 1 ∧
    ∀ e ∈ (gst_video_decoder_decode_frame s frame env).state.finished ++
        (gst_video_decoder_decode_frame s frame env).state.frames,
      (∃ g ∈ s.finished ++ s.frames,
        e.system_frame_number = g.system_frame_number ∧ e.pts = g.pts) ∨
      (e.system_frame_number = frame.system_frame_number ∧ e.pts = frame.pts) := by
  have ht := traces_handle_frame { s with frames := s.frames ++ [frame] } frame env
  refine ⟨?_, ?_⟩
  · have := ht.1
    simp only [List.length_append, List.length_singleton] at this
    unfold gst_video_decoder_decode_frame
    omega
  · intro e he
    obtain ⟨g, hg, hn, hp⟩ := ht.2 e he
    simp only [List.mem_append, List.mem_singleton] at hg
    rcases hg with hg | hg | rfl
    · exact Or.inl ⟨g, List.mem_append.mpr (Or.inl hg), hn, hp⟩
    · exact Or.inl ⟨g, List.mem_append.mpr (Or.inr hg), hn, hp⟩
    · exact Or.inr ⟨hn, hp⟩

/-- Along every interleaving the number of frames held (pending or emitted)
grows by at most the number of submissions, and every frame held comes from
the initial state or from a submission. -/
theorem run_bound (evs : List Event) :
    ∀ s : GstV4l2VideoDec,
      (run s evs).finished.length + (run s evs).frames.length
        ≤ s.finished.length + s.frames.length + (submitted evs).length ∧
      ∀ e ∈ (run s evs).finished ++ (run s evs).frames,
        (∃ g ∈ s.finished ++ s.frames,
          e.system_frame_number = g.system_frame_number ∧ e.pts = g.pts) ∨
        (∃ f ∈ submitted evs,
          e.system_frame_number = f.system_frame_number ∧ e.pts = f.pts) := by
  induction evs with
  | nil =>
    intro s
    exact ⟨Nat.le_add_right _ _, fun e he => Or.inl ⟨e, he, rfl, rfl⟩⟩
  | cons ev evs ih =>
    intro s
    cases ev with
    | submit frame env =>
      have hb := decode_frame_bound s frame env
      cases hout : gst_video_decoder_decode_frame s frame env with
      | fault s' =>
        rw [hout] at hb
        simp only [Outcome.state] at hb
        simp only [run, hout, submitted, List.length_cons]
        refine ⟨by omega, ?_⟩
        intro e he
        rcases hb.2 e he with h | ⟨hn, hp⟩
        · exact Or.inl h
        · exact Or.inr ⟨frame, List.mem_cons_self _ _, hn, hp⟩
      | done ret s' =>
        rw [hout] at hb
        simp only [Outcome.state] at hb
        obtain ⟨hlen, hmem⟩ := ih s'
        simp only [run, hout, submitted, List.length_cons]
        refine ⟨by omega, ?_⟩
        intro e he
        rcases hmem e he with ⟨g, hg, hn, hp⟩ | ⟨f, hf, hn, hp⟩
        · rcases hb.2 g hg with ⟨g', hg', hn', hp'⟩ | ⟨hn', hp'⟩
          · exact Or.inl ⟨g', hg', hn.trans hn', hp.trans hp'⟩
          · exact Or.inr ⟨frame, List.mem_cons_self _ _, hn.trans hn', hp.trans hp'⟩
        · exact Or.inr ⟨f, List.mem_cons_of_mem _ hf, hn, hp⟩
    | loop env =>
      have ht := traces_loop s env
      obtain ⟨hlen, hmem⟩ := ih (gst_v4l2_video_dec_loop s env)
      simp only [run, submitted]
      refine ⟨by have := ht.1; omega, ?_⟩
      intro e he
      rcases hmem e he with ⟨g, hg, hn, hp⟩ | h
      · obtain ⟨g', hg', hn', hp'⟩ := ht.2 g hg
        exact Or.inl ⟨g', hg', hn.trans hn', hp.trans hp'⟩
      · exact Or.inr h

/-- Claim C8.  Start from a state with nothing pending and nothing emitted and
let submissions and capture-loop iterations interleave in any way.  The number
of frames emitted never exceeds the number of frames submitted, and every
emitted frame carries the sequence number and the timestamp of a submitted
frame.  Scenario: the frame (ts=100, seq=1) submitted as first frame of a
stream, then one decoded buffer: the frame emitted has seq=1 and ts=100. -/
theorem C8_emitted_frames_were_submitted (s : GstV4l2VideoDec) (evs : List Event)
    (hpending : s.frames = []) (hemitted : s.finished = []) :
    (run s evs).finished.length ≤ (submitted evs).length ∧
    (∀ e ∈ (run s evs).finished, ∃ f ∈ submitted evs,
      e.system_frame_number = f.system_frame_number ∧ e.pts = f.pts) ∧
    (run dec_started [Event.submit frame_100_1 env_ok, Event.loop loop_decoded]).finished
      = [⟨1, 100, none, some ⟨[9, 9]⟩⟩] := by
  obtain ⟨hlen, hmem⟩ := run_bound evs s
  rw [hpending, hemitted] at hlen
  simp only [List.length_nil, Nat.zero_add] at hlen
  refine ⟨by omega, ?_, by decide⟩
  intro e he
  rcases hmem e (List.mem_append.mpr (Or.inl he)) with ⟨g, hg, -, -⟩ | h
  · rw [hpending, hemitted] at hg
    simp at hg
  · exact h

/-- Claim C8 at a concrete input: the decoder before its first frame, the
frame (ts=100, seq=1) submitted, then a decoded buffer, then the zero-length
buffer. -/
theorem C8_emitted_frames_were_submitted_witness :
    (dec_started.frames = [] ∧ dec_started.finished = []) ∧
    (run dec_started
        [Event.submit frame_100_1 env_ok, Event.loop loop_decoded,
          Event.loop loop_sentinel]).finished.length
      ≤ (submitted
        [Event.submit frame_100_1 env_ok, Event.loop loop_decoded,
          Event.loop loop_sentinel]).length :=
  ⟨⟨rfl, rfl⟩,
    (C8_emitted_frames_were_submitted dec_started
      [Event.submit frame_100_1 env_ok, Event.loop loop_decoded, Event.loop loop_sentinel]
      rfl rfl).1⟩

/-! ## Life cycle: stop and open -/

/-- Claim C9.  `stop` completes exactly when the decoder is neither active nor
processing; it then stops both queues and clears the input state.  In every
other state the assertions fail in the entry state: no queue has been stopped
and the input state has not been released. -/
theorem C9_stop_requires_quiescence (s : GstV4l2VideoDec) :
    gst_v4l2_video_dec_stop s
      = (if s.active = false ∧ s.processing = false then
          Outcome.done true
            { s with
              v4l2output := { s.v4l2output with active := false }
              v4l2capture := { s.v4l2capture with active := false }
              input_state := none }
         else Outcome.fault s) ∧
    ((∃ s', gst_v4l2_video_dec_stop s = Outcome.done true s') ↔
      (s.active = false ∧ s.processing = false)) ∧
    gst_v4l2_video_dec_stop dec_running = Outcome.fault dec_running ∧
    gst_v4l2_video_dec_stop { dec_inactive with processing := true }
      = Outcome.fault { dec_inactive with processing := true } ∧
    ∃ s', gst_v4l2_video_dec_stop dec_inactive = Outcome.done true s' ∧
      s'.v4l2output.active = false ∧ s'.v4l2capture.active = false ∧ s'.input_state = none := by
  refine ⟨?_, ?_, by decide, by decide, ⟨_, rfl, rfl, rfl, rfl⟩⟩
  · cases ha : s.active <;> cases hp : s.processing <;>
      simp [gst_v4l2_video_dec_stop, ha, hp, gst_v4l2_object_stop]
  · cases ha : s.active <;> cases hp : s.processing <;>
      simp [gst_v4l2_video_dec_stop, ha, hp]

/-- Claim C10.  `open` succeeds exactly when both queues open and both probed
caps are non-empty; it then leaves both queues open and both probed caps
recorded.  On every failure it returns FALSE with both queues closed and both
probed caps cleared.  In no case does it activate a queue.  On a closed
decoder: empty raw caps, or a capture queue that does not open, give FALSE and
the closed decoder again; two queues that open with non-empty caps give TRUE. -/
theorem C10_open_succeeds_iff_queues_and_caps (s : GstV4l2VideoDec) (env : OpenEnv) :
    ((gst_v4l2_video_dec_open s env).1 = true ↔
      (env.open_output_ok = true ∧ env.open_capture_ok = true ∧
        gst_caps_is_empty env.sinkcaps = false ∧ gst_caps_is_empty env.srccaps = false)) ∧
    (((gst_v4l2_video_dec_open s env).1 = true ∧
        (gst_v4l2_video_dec_open s env).2.v4l2output.opened = true ∧
        (gst_v4l2_video_dec_open s env).2.v4l2capture.opened = true ∧
        (gst_v4l2_video_dec_open s env).2.probed_sinkcaps = some env.sinkcaps ∧
        (gst_v4l2_video_dec_open s env).2.probed_srccaps = some env.srccaps) ∨
      ((gst_v4l2_video_dec_open s env).1 = false ∧
        (gst_v4l2_video_dec_open s env).2.v4l2output.opened = false ∧
        (gst_v4l2_video_dec_open s env).2.v4l2capture.opened = false ∧
        (gst_v4l2_video_dec_open s env).2.probed_sinkcaps = none ∧
        (gst_v4l2_video_dec_open s env).2.probed_srccaps = none)) ∧
    (gst_v4l2_video_dec_open s env).2.v4l2output.active = s.v4l2output.active ∧
    (gst_v4l2_video_dec_open s env).2.v4l2capture.active = s.v4l2capture.active ∧
    gst_v4l2_video_dec_open dec_closed ⟨true, true, ["video/x-h264"], []⟩
      = (false, dec_closed) ∧
    gst_v4l2_video_dec_open dec_closed ⟨true, false, ["video/x-h264"], ["video/x-raw"]⟩
      = (false, dec_closed) ∧
    gst_v4l2_video_dec_open dec_closed ⟨true, true, ["video/x-h264"], ["video/x-raw"]⟩
      = (true, { dec_closed with
          v4l2output := queue_opened, v4l2capture := queue_opened,
          probed_sinkcaps := some ["video/x-h264"], probed_srccaps := some ["video/x-raw"] }) := by
  refine ⟨?_, ?_, ?_, ?_, by decide, by decide, by decide⟩ <;>
  cases h1 : env.open_output_ok <;> cases h2 : env.open_capture_ok <;>
    cases h3 : gst_caps_is_empty env.sinkcaps <;> cases h4 : gst_caps_is_empty env.srccaps <;>
    cases h5 : s.v4l2output.opened <;> cases h6 : s.v4l2capture.opened <;>
    simp [gst_v4l2_video_dec_open, open_failure, gst_v4l2_object_open, gst_v4l2_object_close,
      h1, h2, h3, h4, h5, h6]

/-! ## Configuration -/

/-- Claim C11.  When the decoder already has an input state and the caps of
the stream description presented are the caps configured on the output queue,
`set_format` returns TRUE and changes nothing: the device queue is not
reconfigured and `input_state` stays what it was.  In general the device
queue is reconfigured, once, exactly when there is no input state or the caps
are not the configured ones. -/
theorem C11_set_format_idempotent_when_compatible (s : GstV4l2VideoDec)
    (state old : GstVideoCodecState) (set_format_ok : Bool)
    (hstate : s.input_state = some old) (hcaps : s.v4l2output.caps = some state.caps) :
    gst_v4l2_video_dec_set_format s state set_format_ok = (true, s) ∧
    (gst_v4l2_video_dec_set_format s state set_format_ok).2.v4l2output.set_format_calls
      = s.v4l2output.set_format_calls ∧
    (gst_v4l2_video_dec_set_format s state set_format_ok).2.input_state = some old ∧
    ∀ (s₀ : GstV4l2VideoDec) (state₀ : GstVideoCodecState) (ok₀ : Bool),
      (gst_v4l2_video_dec_set_format s₀ state₀ ok₀).2.v4l2output.set_format_calls
        = s₀.v4l2output.set_format_calls +
          (if s₀.input_state = none ∨ s₀.v4l2output.caps ≠ some state₀.caps then 1 else 0) := by
  have h : gst_v4l2_video_dec_set_format s state set_format_ok = (true, s) := by
    simp [gst_v4l2_video_dec_set_format, hstate, gst_v4l2_object_caps_equal, hcaps]
  refine ⟨h, by rw [h], by rw [h]; exact hstate, ?_⟩
  intro s₀ state₀ ok₀
  cases hin : s₀.input_state with
  | none =>
    cases ok₀ <;>
      simp [gst_v4l2_video_dec_set_format, hin, set_format_configure,
        gst_v4l2_object_set_format]
  | some old₀ =>
    by_cases hc : s₀.v4l2output.caps = some state₀.caps
    · simp [gst_v4l2_video_dec_set_format, hin, gst_v4l2_object_caps_equal, hc]
    · cases ok₀ <;>
        simp [gst_v4l2_video_dec_set_format, hin, gst_v4l2_object_caps_equal, hc,
          set_format_configure, gst_v4l2_object_set_format]

/-- Claim C11 at a concrete input: the running decoder is presented the caps
it is configured with, together with new codec data. -/
theorem C11_set_format_idempotent_when_compatible_witness :
    (dec_running.input_state = some ⟨["video/x-h264"], none⟩ ∧
      dec_running.v4l2output.caps
        = some (⟨["video/x-h264"], some ⟨[1]⟩⟩ : GstVideoCodecState).caps) ∧
    gst_v4l2_video_dec_set_format dec_running ⟨["video/x-h264"], some ⟨[1]⟩⟩ false
      = (true, dec_running) :=
  ⟨⟨rfl, rfl⟩,
    (C11_set_format_idempotent_when_compatible dec_running ⟨["video/x-h264"], some ⟨[1]⟩⟩
      ⟨["video/x-h264"], none⟩ false rfl rfl).1⟩

/-! ## What the capture task leaves alone -/

/-- One iteration of the capture loop is a task step. -/
theorem task_step_loop (s : GstV4l2VideoDec) (env : LoopEnv) :
    TaskStep s (gst_v4l2_video_dec_loop s env) := by
  unfold gst_v4l2_video_dec_loop TaskStep
  simp only []
  split_ifs <;> (try split) <;>
    simp [loop_beach, gst_v4l2_object_unlock, gst_v4l2_buffer_pool_process,
      gst_video_decoder_finish_frame]

/-- The iterations of a window are a task step. -/
theorem task_step_run_task (envs : List LoopEnv) :
    ∀ s : GstV4l2VideoDec, TaskStep s (run_task s envs) := by
  induction envs with
  | nil => intro s; simp [run_task, TaskStep]
  | cons env envs ih =>
    intro s
    unfold run_task
    split_ifs
    · obtain ⟨a1, a2, a3, a4, a5, a6, a7, a8, a9⟩ := task_step_loop s env
      obtain ⟨b1, b2, b3, b4, b5, b6, b7, b8, b9⟩ := ih (gst_v4l2_video_dec_loop s env)
      exact ⟨b1.trans a1, b2.trans a2, b3.trans a3, b4.trans a4, b5.trans a5, b6.trans a6,
        b7.trans a7, fun h => a8 (b8 h), fun h => a9 (b9 h)⟩
    · simp [TaskStep]

/-- A task that is not started performs no iteration. -/
theorem run_task_not_started (s : GstV4l2VideoDec) (envs : List LoopEnv)
    (htask : s.task ≠ GST_TASK_STARTED) : run_task s envs = s := by
  cases envs with
  | nil => rfl
  | cons env envs => simp [run_task, htask]

/-! ## Flush followed by a submission -/

/-- The poison-buffer loop goes through every enqueue that returns Ok and
exits at the first enqueue that returns something else, with that result; it
has then enqueued one empty buffer per step, the last one included. -/
theorem finish_loop_exit (oks : List EnqueueStep) (last : EnqueueStep)
    (rest : List EnqueueStep) (hoks : ∀ o ∈ oks, o.ret = GST_FLOW_OK)
    (hlast : last.ret ≠ GST_FLOW_OK) :
    ∀ s : GstV4l2VideoDec, ∃ s', finish_loop s (oks ++ last :: rest) = some (last.ret, s') ∧
      s'.v4l2output.queued
        = s.v4l2output.queued ++ List.replicate (oks.length + 1) (⟨[]⟩ : GstBuffer) ∧
      s'.input_state = s.input_state := by
  induction oks with
  | nil =>
    intro s
    simp only [List.nil_append, finish_loop, hlast, if_false]
    refine ⟨_, rfl, ?_, ?_⟩
    · simp [run_task_output_queued, gst_v4l2_buffer_pool_process]
    · exact (task_step_run_task last.during _).2.1
  | cons o oks ih =>
    intro s
    have ho : o.ret = GST_FLOW_OK := hoks o (List.mem_cons_self _ _)
    obtain ⟨s', hs', hq, hi⟩ := ih (fun o' ho' => hoks o' (List.mem_cons_of_mem _ ho'))
      (run_task
        { s with v4l2output := gst_v4l2_buffer_pool_process s.v4l2output ⟨[]⟩ } o.during)
    refine ⟨s', by simp only [List.cons_append, finish_loop, ho, if_true]; exact hs', ?_, ?_⟩
    · rw [hq, run_task_output_queued]
      simp [gst_v4l2_buffer_pool_process, List.replicate_succ]
    · rw [hi]
      exact (task_step_run_task o.during _).2.1

/-- Whenever the poison-buffer loop exits, it has enqueued at least one empty
buffer. -/
theorem finish_loop_enqueues (steps : List EnqueueStep) :
    ∀ (s s' : GstV4l2VideoDec) (ret : GstFlowReturn), finish_loop s steps = some (ret, s') →
      s.v4l2output.queued.length < s'.v4l2output.queued.length := by
  induction steps with
  | nil => intro s s' ret h; simp [finish_loop] at h
  | cons step steps ih =>
    intro s s' ret h
    have hq : (run_task
        { s with v4l2output := gst_v4l2_buffer_pool_process s.v4l2output ⟨[]⟩ }
        step.during).v4l2output.queued.length = s.v4l2output.queued.length + 1 := by
      rw [run_task_output_queued]
      simp [gst_v4l2_buffer_pool_process]
    simp only [finish_loop] at h
    split_ifs at h with hret
    · have := ih _ s' ret h
      omega
    · obtain ⟨-, rfl⟩ := Prod.mk.inj (Option.some.inj h)
      omega

/-- Claim C13, refuted as stated.  The running decoder is drained; the first
empty buffer is accepted; during the second enqueue the capture queue is
unblocked, the capture loop is told Flushing by its buffer pool and leaves,
and the enqueue is woken up with Flushing.  No error has occurred, and drain
returns Flushing. -/
theorem C13_finish_returns_flushing_without_error :
    ∃ s', gst_v4l2_video_dec_finish dec_running
        [⟨[], GST_FLOW_OK⟩,
          ⟨[⟨GST_FLOW_FLUSHING, ⟨[]⟩, GST_FLOW_OK, GST_FLOW_OK⟩], GST_FLOW_FLUSHING⟩]
      = some (Outcome.done GST_FLOW_FLUSHING s') ∧
      s'.output_flow = GST_FLOW_FLUSHING ∧ s'.processing = false :=
  ⟨_, rfl, rfl, rfl⟩

/-- Claim C13, amended.  With a stream description configured, drain enqueues
empty buffers as long as the enqueue returns Ok and stops at the first other
result.  If the capture loop has stopped by then, drain returns: the value of
`output_flow`, whatever it is, when that result is Flushing; that result
itself otherwise.  So it returns Ok when the loop ended on the zero-length
buffer (last conjunct) and Flushing when the loop ended on Flushing. -/
theorem C13_finish_returns_recorded_result (s : GstV4l2VideoDec) (st : GstVideoCodecState)
    (oks : List EnqueueStep) (last : EnqueueStep) (rest : List EnqueueStep)
    (hstate : s.input_state = some st) (hoks : ∀ o ∈ oks, o.ret = GST_FLOW_OK)
    (hlast : last.ret ≠ GST_FLOW_OK) :
    (∃ s', finish_loop s (oks ++ last :: rest) = some (last.ret, s') ∧
      s'.v4l2output.queued
        = s.v4l2output.queued ++ List.replicate (oks.length + 1) (⟨[]⟩ : GstBuffer) ∧
      gst_v4l2_video_dec_finish s (oks ++ last :: rest)
        = some (if s'.processing ≠ false then Outcome.fault s'
            else Outcome.done
              (if last.ret = GST_FLOW_FLUSHING then s'.output_flow else last.ret) s')) ∧
    ∃ s', gst_v4l2_video_dec_finish dec_running
        [⟨[], GST_FLOW_OK⟩, ⟨[loop_sentinel], GST_FLOW_FLUSHING⟩]
      = some (Outcome.done GST_FLOW_OK s') ∧
      s'.output_flow = GST_FLOW_OK ∧ s'.processing = false := by
  refine ⟨?_, ⟨_, rfl, rfl, rfl⟩⟩
  obtain ⟨s', hs', hq, -⟩ := finish_loop_exit oks last rest hoks hlast s
  refine ⟨s', hs', hq, ?_⟩
  simp only [gst_v4l2_video_dec_finish, hstate, hs']
  split_ifs <;> rfl

/-- Claim C13, amended, at a concrete input: the running decoder, two
accepted empty buffers, then an enqueue that fails with an error after the
capture loop has left on that error. -/
theorem C13_finish_returns_recorded_result_witness :
    (dec_running.input_state = some ⟨["video/x-h264"], none⟩ ∧
      (∀ o ∈ ([⟨[], GST_FLOW_OK⟩, ⟨[], GST_FLOW_OK⟩] : List EnqueueStep),
        o.ret = GST_FLOW_OK) ∧
      (⟨[⟨GST_FLOW_ERROR, ⟨[]⟩, GST_FLOW_OK, GST_FLOW_OK⟩], GST_FLOW_ERROR⟩ : EnqueueStep).ret
        ≠ GST_FLOW_OK) ∧
    ∃ s', finish_loop dec_running
        ([⟨[], GST_FLOW_OK⟩, ⟨[], GST_FLOW_OK⟩] ++
          (⟨[⟨GST_FLOW_ERROR, ⟨[]⟩, GST_FLOW_OK, GST_FLOW_OK⟩], GST_FLOW_ERROR⟩ : EnqueueStep)
            :: [])
        = some (GST_FLOW_ERROR, s') ∧
      s'.v4l2output.queued
        = dec_running.v4l2output.queued ++ List.replicate (2 + 1) (⟨[]⟩ : GstBuffer) ∧
      gst_v4l2_video_dec_finish dec_running
        ([⟨[], GST_FLOW_OK⟩, ⟨[], GST_FLOW_OK⟩] ++
          (⟨[⟨GST_FLOW_ERROR, ⟨[]⟩, GST_FLOW_OK, GST_FLOW_OK⟩], GST_FLOW_ERROR⟩ : EnqueueStep)
            :: [])
        = some (if s'.processing ≠ false then Outcome.fault s'
            else Outcome.done
              (if GST_FLOW_ERROR = GST_FLOW_FLUSHING then s'.output_flow
                else GST_FLOW_ERROR) s') :=
  ⟨⟨rfl, by decide, by decide⟩,
    (C13_finish_returns_recorded_result dec_running ⟨["video/x-h264"], none⟩
      [⟨[], GST_FLOW_OK⟩, ⟨[], GST_FLOW_OK⟩]
      ⟨[⟨GST_FLOW_ERROR, ⟨[]⟩, GST_FLOW_OK, GST_FLOW_OK⟩], GST_FLOW_ERROR⟩ [] rfl
      (by decide) (by decide)).1⟩

/-- Claim C14, refuted as stated.  Nothing is pending, a stream description is
configured and the capture loop is running.  Drain does not return at once:
it enqueues an empty buffer, on which the capture loop meets the zero-length
buffer and leaves; only then does drain return Ok. -/
theorem C14_finish_enqueues_with_nothing_pending :
    ({ dec_running with frames := [] } : GstV4l2VideoDec).frames = [] ∧
    ({ dec_running with frames := [] } : GstV4l2VideoDec).v4l2output.queued = [] ∧
    gst_v4l2_video_dec_finish { dec_running with frames := [] } [] = none ∧
    ∃ s', gst_v4l2_video_dec_finish { dec_running with frames := [] }
        [⟨[loop_sentinel], GST_FLOW_FLUSHING⟩]
      = some (Outcome.done GST_FLOW_OK s') ∧
      s'.v4l2output.queued = [⟨[]⟩] :=
  ⟨rfl, rfl, rfl, _, rfl, rfl⟩

/-- Claim C14, amended.  Drain returns at once with Ok, without enqueuing
anything and without any other change, when no stream description has been
configured, whatever is pending.  When a stream description is configured,
drain does not look at the pending list: whenever it returns or faults it has
enqueued at least one empty buffer. -/
theorem C14_finish_immediate_without_input_state (s : GstV4l2VideoDec)
    (steps : List EnqueueStep) (hstate : s.input_state = none) :
    gst_v4l2_video_dec_finish s steps = some (Outcome.done GST_FLOW_OK s) ∧
    ∀ (s₀ : GstV4l2VideoDec) (st : GstVideoCodecState) (steps₀ : List EnqueueStep)
      (out : Outcome GstFlowReturn),
      s₀.input_state = some st → gst_v4l2_video_dec_finish s₀ steps₀ = some out →
      s₀.v4l2output.queued.length < out.state.v4l2output.queued.length := by
  refine ⟨by simp [gst_v4l2_video_dec_finish, hstate], ?_⟩
  intro s₀ st steps₀ out hst hout
  simp only [gst_v4l2_video_dec_finish, hst] at hout
  cases hloop : finish_loop s₀ steps₀ with
  | none => simp [hloop] at hout
  | some r =>
    obtain ⟨ret, s'⟩ := r
    have hlen := finish_loop_enqueues steps₀ s₀ s' ret hloop
    simp only [hloop] at hout
    split_ifs at hout <;>
    · rw [← Option.some.inj hout]
      exact hlen

/-- Claim C14, amended, at a concrete input: a decoder that has never been
configured. -/
theorem C14_finish_immediate_without_input_state_witness :
    dec_closed.input_state = none ∧
    gst_v4l2_video_dec_finish dec_closed [⟨[], GST_FLOW_OK⟩, ⟨[], GST_FLOW_FLUSHING⟩]
      = some (Outcome.done GST_FLOW_OK dec_closed) :=
  ⟨rfl,
    (C14_finish_immediate_without_input_state dec_closed
      [⟨[], GST_FLOW_OK⟩, ⟨[], GST_FLOW_FLUSHING⟩] rfl).1⟩

/-- Claim C18, evaluated where the code departs from it.  The running decoder
(stream configured, capture loop processing) is drained and the first enqueue
fails with a device error, or is woken up with Flushing, before the capture
loop has left: the poison-buffer loop exits with `processing` still true and
the assertion that follows it fails. -/
theorem C18_finish_assertion_fails_while_processing :
    dec_running.processing = true ∧
    (∃ s', finish_loop dec_running [⟨[], GST_FLOW_ERROR⟩] = some (GST_FLOW_ERROR, s') ∧
      s'.processing = true ∧
      gst_v4l2_video_dec_finish dec_running [⟨[], GST_FLOW_ERROR⟩]
        = some (Outcome.fault s')) ∧
    (∃ s', finish_loop dec_running [⟨[], GST_FLOW_FLUSHING⟩]
        = some (GST_FLOW_FLUSHING, s') ∧
      s'.processing = true ∧
      gst_v4l2_video_dec_finish dec_running [⟨[], GST_FLOW_FLUSHING⟩]
        = some (Outcome.fault s')) :=
  ⟨rfl, ⟨_, rfl, rfl, rfl⟩, ⟨_, rfl, rfl, rfl⟩⟩

/-! ## First frame: negotiation -/

/-- The capture task does not clear or set `active`. -/
theorem run_task_active (s : GstV4l2VideoDec) (envs : List LoopEnv) :
    (run_task s envs).active = s.active :=
  (task_step_run_task envs s).1

/-- The capture task drops no frame. -/
theorem run_task_dropped (s : GstV4l2VideoDec) (envs : List LoopEnv) :
    (run_task s envs).dropped = s.dropped :=
  (task_step_run_task envs s).2.2.2.1

/-- The capture task never sets `processing`. -/
theorem run_task_processing_false (s : GstV4l2VideoDec) (envs : List LoopEnv)
    (hproc : s.processing = false) : (run_task s envs).processing = false := by
  cases h : (run_task s envs).processing with
  | false => rfl
  | true =>
    have := (task_step_run_task envs s).2.2.2.2.2.2.2.1 h
    rw [hproc] at this
    exact absurd this (by decide)

/-- The capture task never starts itself. -/
theorem run_task_started (s : GstV4l2VideoDec) (envs : List LoopEnv)
    (h : (run_task s envs).task = GST_TASK_STARTED) : s.task = GST_TASK_STARTED :=
  (task_step_run_task envs s).2.2.2.2.2.2.2.2 h

/-- A failed negotiation on the first frame: the header has been enqueued, the
frame is dropped, and the value is NotNegotiated, except that a negotiation
rejected downstream while the source pad is flushing gives Flushing. -/
theorem handle_frame_negotiate_fails (s : GstV4l2VideoDec) (frame : GstVideoCodecFrame)
    (env : HandleFrameEnv) (codec_data : GstBuffer)
    (hfail : env.setup_format = none ∨ env.negotiate_ok = false) :
    ∃ s₁, handle_frame_negotiate s frame env codec_data
        = handle_frame_drop s₁ frame
            (if env.setup_format ≠ none ∧ env.srcpad_flushing = true then GST_FLOW_FLUSHING
             else GST_FLOW_NOT_NEGOTIATED) ∧
      s₁.dropped = s.dropped ∧ s₁.active = s.active ∧
      s₁.v4l2output.queued = s.v4l2output.queued ++ [codec_data] ∧
      (s.processing = false → s₁.processing = false) ∧
      (s₁.task = GST_TASK_STARTED → s.task = GST_TASK_STARTED) := by
  have hrest : ∀ s₀ : GstV4l2VideoDec, s₀ = run_task
        { s with
          v4l2output := gst_v4l2_buffer_pool_process
            (gst_v4l2_object_unlock_stop s.v4l2output) codec_data } env.during_header →
      s₀.dropped = s.dropped ∧ s₀.active = s.active ∧
      s₀.v4l2output.queued = s.v4l2output.queued ++ [codec_data] ∧
      (s.processing = false → s₀.processing = false) ∧
      (s₀.task = GST_TASK_STARTED → s.task = GST_TASK_STARTED) := by
    intro s₀ hs₀
    subst hs₀
    refine ⟨by rw [run_task_dropped], by rw [run_task_active], ?_, ?_, ?_⟩
    · rw [run_task_output_queued]
      simp [gst_v4l2_buffer_pool_process, gst_v4l2_object_unlock_stop]
    · intro hp
      exact run_task_processing_false _ _ hp
    · intro ht
      have hstarted := run_task_started _ _ ht
      exact hstarted
  obtain ⟨h1, h2, h3, h4, h5⟩ := hrest _ rfl
  unfold handle_frame_negotiate
  cases hsetup : env.setup_format with
  | none =>
    simp only [handle_frame_not_negotiated, ne_eq, not_true_eq_false, false_and, if_false]
    exact ⟨_, rfl, h1, h2, h3, h4, h5⟩
  | some info =>
    have hneg : env.negotiate_ok = false := by
      rcases hfail with h | h
      · rw [hsetup] at h
        exact absurd h (by simp)
      · exact h
    cases hflush : env.srcpad_flushing with
    | false =>
      simp only [hneg, handle_frame_not_negotiated, ne_eq, reduceCtorEq, not_false_eq_true,
        true_and, if_true, Bool.false_eq_true, if_false]
      exact ⟨_, rfl, h1, h2, h3, h4, h5⟩
    | true =>
      simp only [hneg, handle_frame_flushing, ne_eq, reduceCtorEq, not_false_eq_true,
        true_and, if_true]
      exact ⟨_, rfl, h1, h2, h3, h4, h5⟩

/-- On an active decoder whose capture queue is not configured, a submission
comes down to the first-frame part: after the output queue has been configured
if it was not, the header is the codec data of the stream or else the input
buffer of the frame, which the frame then no longer has. -/
theorem handle_frame_first_frame (s : GstV4l2VideoDec) (frame : GstVideoCodecFrame)
    (env : HandleFrameEnv) (st : GstVideoCodecState) (hactive : s.active = true)
    (hout : s.v4l2output.active = true ∨ env.set_format_ok = true)
    (hcap : s.v4l2capture.active = false) (hstate : s.input_state = some st) :
    ∃ s₀ : GstV4l2VideoDec,
      (s₀.dropped = s.dropped ∧ s₀.active = s.active ∧ s₀.processing = s.processing ∧
        s₀.task = s.task ∧ s₀.output_flow = s.output_flow ∧
        s₀.v4l2output.queued = s.v4l2output.queued ∧ s₀.frames = s.frames ∧
        s₀.v4l2capture = s.v4l2capture ∧ s₀.input_state = s.input_state ∧
        s₀.v4l2output.active = true) ∧
      gst_v4l2_video_dec_handle_frame s frame env
        = (match st.codec_data with
          | some codec_data => handle_frame_negotiate s₀ frame env codec_data
          | none =>
            match frame.input_buffer with
            | none => Outcome.fault { s₀ with frames := set_input_buffer s₀.frames frame none }
            | some b =>
              handle_frame_negotiate
                { s₀ with frames := set_input_buffer s₀.frames frame none }
                { frame with input_buffer := none } env b) := by
  by_cases ho : s.v4l2output.active = true
  · refine ⟨s, ⟨rfl, rfl, rfl, rfl, rfl, rfl, rfl, rfl, rfl, ho⟩, ?_⟩
    simp only [gst_v4l2_video_dec_handle_frame, handle_frame_capture, hactive, ho, hcap,
      hstate, Bool.true_eq_false, if_false, if_true]
  · have hok : env.set_format_ok = true := by
      rcases hout with h | h
      · exact absurd h ho
      · exact h
    have ho' : s.v4l2output.active = false := by
      cases h : s.v4l2output.active
      · rfl
      · exact absurd h ho
    refine ⟨{ s with v4l2output := gst_v4l2_object_set_format s.v4l2output st.caps true },
      ⟨rfl, rfl, rfl, rfl, rfl, ?_, rfl, rfl, rfl, ?_⟩, ?_⟩
    · simp [gst_v4l2_object_set_format]
    · simp [gst_v4l2_object_set_format]
    · simp only [gst_v4l2_video_dec_handle_frame, handle_frame_capture, hactive, ho', hok,
        hcap, hstate, Bool.true_eq_false, if_false, if_true]

/-- Claim C15, refuted as stated.  First frame of a stream; the device accepts
the header and reports its capture format, the downstream negotiation is
rejected and the source pad is flushing at that moment: the submission returns
Flushing, not NotNegotiated. -/
theorem C15_negotiation_rejected_while_flushing_returns_flushing :
    (dec_started.active = true ∧ dec_started.v4l2capture.active = false) ∧
    ∃ s', gst_v4l2_video_dec_handle_frame dec_started frame_100_1
        { env_ok with negotiate_ok := false, srcpad_flushing := true }
      = Outcome.done (GST_FLOW_FLUSHING, { frame_100_1 with input_buffer := none }) s' ∧
      s'.dropped = [{ frame_100_1 with input_buffer := none }] ∧ s'.processing = false :=
  ⟨⟨rfl, rfl⟩, _, rfl, rfl, rfl⟩

/-- Claim C15, amended.  First frame (decoder active, capture queue not
configured, capture task not processing, a header to send): when the capture
format setup fails or the downstream negotiation is rejected, the submission
drops the frame and does not start the capture task (`processing` stays
false, and the task is started afterwards only if it was before).  It returns
NotNegotiated, except when the negotiation is rejected downstream while the
source pad is flushing: then it returns Flushing. -/
theorem C15_first_frame_negotiation_failure (s : GstV4l2VideoDec)
    (frame : GstVideoCodecFrame) (env : HandleFrameEnv) (st : GstVideoCodecState)
    (hactive : s.active = true)
    (hout : s.v4l2output.active = true ∨ env.set_format_ok = true)
    (hcap : s.v4l2capture.active = false) (hstate : s.input_state = some st)
    (hheader : st.codec_data ≠ none ∨ frame.input_buffer ≠ none)
    (hproc : s.processing = false)
    (hfail : env.setup_format = none ∨ env.negotiate_ok = false) :
    ∃ frame' s', gst_v4l2_video_dec_handle_frame s frame env
        = Outcome.done
            (if env.setup_format ≠ none ∧ env.srcpad_flushing = true then GST_FLOW_FLUSHING
             else GST_FLOW_NOT_NEGOTIATED, frame') s' ∧
      s'.dropped = s.dropped ++ [frame'] ∧ s'.processing = false ∧
      (s'.task = GST_TASK_STARTED → s.task = GST_TASK_STARTED) := by
  obtain ⟨s₀, ⟨hd, -, hp, ht, -, -, -⟩, heq⟩ :=
    handle_frame_first_frame s frame env st hactive hout hcap hstate
  rw [heq]
  cases hcd : st.codec_data with
  | some codec_data =>
    obtain ⟨s₁, h, h1, -, -, h4, h5⟩ :=
      handle_frame_negotiate_fails s₀ frame env codec_data hfail
    refine ⟨frame, gst_video_decoder_drop_frame s₁ frame, ?_, ?_, ?_, ?_⟩
    · simp only [h, handle_frame_drop]
    · simp [gst_video_decoder_drop_frame, h1, hd]
    · exact h4 (hp.trans hproc)
    · intro hs
      exact ht ▸ h5 hs
  | none =>
    cases hb : frame.input_buffer with
    | none =>
      rcases hheader with h | h
      · exact absurd hcd h
      · exact absurd hb h
    | some b =>
      obtain ⟨s₁, h, h1, -, -, h4, h5⟩ :=
        handle_frame_negotiate_fails
          { s₀ with frames := set_input_buffer s₀.frames frame none }
          { frame with input_buffer := none } env b hfail
      refine ⟨{ frame with input_buffer := none },
        gst_video_decoder_drop_frame s₁ { frame with input_buffer := none }, ?_, ?_, ?_, ?_⟩
      · simp only [h, handle_frame_drop]
      · simp only [gst_video_decoder_drop_frame, h1]
        rw [← hd]
      · exact h4 (hp.trans hproc)
      · intro hs
        exact ht ▸ h5 hs

/-- Claim C15, amended, at a concrete input: first frame of a stream, the
device reports no capture format. -/
theorem C15_first_frame_negotiation_failure_witness :
    (dec_started.active = true ∧
      (dec_started.v4l2output.active = true ∨
        ({ env_ok with setup_format := none } : HandleFrameEnv).set_format_ok = true) ∧
      dec_started.v4l2capture.active = false ∧
      dec_started.input_state = some ⟨["video/x-h264"], none⟩ ∧
      ((⟨["video/x-h264"], none⟩ : GstVideoCodecState).codec_data ≠ none ∨
        frame_100_1.input_buffer ≠ none) ∧
      dec_started.processing = false ∧
      (({ env_ok with setup_format := none } : HandleFrameEnv).setup_format = none ∨
        ({ env_ok with setup_format := none } : HandleFrameEnv).negotiate_ok = false)) ∧
    ∃ frame' s', gst_v4l2_video_dec_handle_frame dec_started frame_100_1
        { env_ok with setup_format := none }
      = Outcome.done
          (if ({ env_ok with setup_format := none } : HandleFrameEnv).setup_format ≠ none ∧
              ({ env_ok with setup_format := none } : HandleFrameEnv).srcpad_flushing = true
            then GST_FLOW_FLUSHING else GST_FLOW_NOT_NEGOTIATED, frame') s' ∧
      s'.dropped = dec_started.dropped ++ [frame'] ∧ s'.processing = false ∧
      (s'.task = GST_TASK_STARTED → dec_started.task = GST_TASK_STARTED) :=
  ⟨⟨rfl, Or.inr rfl, rfl, rfl, Or.inr (by decide), rfl, Or.inl rfl⟩,
    C15_first_frame_negotiation_failure dec_started frame_100_1
      { env_ok with setup_format := none } ⟨["video/x-h264"], none⟩ rfl (Or.inr rfl) rfl rfl
      (Or.inr (by decide)) rfl (Or.inl rfl)⟩

/-! ## Errors do not disable the decoder -/

/-- The end of a submission leaves `active` alone. -/
theorem handle_frame_enqueue_active (s : GstV4l2VideoDec) (frame : GstVideoCodecFrame)
    (env : HandleFrameEnv) (ret : GstFlowReturn) :
    (handle_frame_enqueue s frame env ret).state.active = s.active := by
  unfold handle_frame_enqueue
  split <;> simp [Outcome.state, run_task_active]

/-- Starting the capture task and enqueuing leaves `active` alone. -/
theorem handle_frame_process_active (s : GstV4l2VideoDec) (frame : GstVideoCodecFrame)
    (env : HandleFrameEnv) (ret : GstFlowReturn) :
    (handle_frame_process s frame env ret).state.active = s.active := by
  unfold handle_frame_process
  split_ifs
  · rfl
  · rw [handle_frame_enqueue_active]
    rfl
  · rw [handle_frame_enqueue_active]

/-- Sending the header and negotiating leaves `active` alone. -/
theorem handle_frame_negotiate_active (s : GstV4l2VideoDec) (frame : GstVideoCodecFrame)
    (env : HandleFrameEnv) (codec_data : GstBuffer) :
    (handle_frame_negotiate s frame env codec_data).state.active = s.active := by
  unfold handle_frame_negotiate
  simp only []
  split
  · simp [handle_frame_not_negotiated, handle_frame_drop, Outcome.state,
      gst_video_decoder_drop_frame, run_task_active]
  · split_ifs
    · simp [handle_frame_flushing, handle_frame_drop, Outcome.state,
        gst_video_decoder_drop_frame, run_task_active]
    · simp [handle_frame_not_negotiated, handle_frame_drop, Outcome.state,
        gst_video_decoder_drop_frame, run_task_active]
    · rw [handle_frame_process_active]
      simp [run_task_active]

/-- The first-frame part of a submission leaves `active` alone. -/
theorem handle_frame_capture_active (s : GstV4l2VideoDec) (frame : GstVideoCodecFrame)
    (env : HandleFrameEnv) : (handle_frame_capture s frame env).state.active = s.active := by
  unfold handle_frame_capture
  split_ifs
  · split
    · rfl
    · split
      · rw [handle_frame_negotiate_active]
      · simp only []
        split
        · rfl
        · rw [handle_frame_negotiate_active]
  · rw [handle_frame_process_active]

/-- A submission never changes `active`, whatever its result. -/
theorem handle_frame_active (s : GstV4l2VideoDec) (frame : GstVideoCodecFrame)
    (env : HandleFrameEnv) :
    (gst_v4l2_video_dec_handle_frame s frame env).state.active = s.active := by
  unfold gst_v4l2_video_dec_handle_frame
  split_ifs
  · rfl
  · split
    · rfl
    · rfl
  · split
    · rfl
    · rw [handle_frame_capture_active]
  · rw [handle_frame_capture_active]

/-- Claim C16, refuted as stated.  The capture loop of the running decoder
stops on a device error: `active` is still true, and after a flush the next
submission is accepted and restarts the capture task, without re-open.  On
the first frame of a stream the capture format setup fails and the submission
returns NotNegotiated: `active` is still true, and the submission of the next
frame negotiates again, this time with success (both headers have gone to the
output queue and the capture queue is configured). -/
theorem C16_errors_leave_decoder_active :
    ((gst_v4l2_video_dec_loop dec_running ⟨GST_FLOW_ERROR, ⟨[]⟩, GST_FLOW_OK, GST_FLOW_OK⟩).processing
        = false ∧
      (gst_v4l2_video_dec_loop dec_running ⟨GST_FLOW_ERROR, ⟨[]⟩, GST_FLOW_OK, GST_FLOW_OK⟩).output_flow
        = GST_FLOW_ERROR ∧
      (gst_v4l2_video_dec_loop dec_running ⟨GST_FLOW_ERROR, ⟨[]⟩, GST_FLOW_OK, GST_FLOW_OK⟩).active
        = true) ∧
    (∃ s', gst_v4l2_video_dec_handle_frame
          (gst_v4l2_video_dec_flush
            (gst_v4l2_video_dec_loop dec_running
              ⟨GST_FLOW_ERROR, ⟨[]⟩, GST_FLOW_OK, GST_FLOW_OK⟩)).2
          frame_100_1 env_ok
        = Outcome.done (GST_FLOW_OK, { frame_100_1 with input_buffer := none }) s' ∧
      s'.processing = true ∧ s'.task = GST_TASK_STARTED ∧
      s'.v4l2output.queued = [⟨[7, 7, 7]⟩]) ∧
    ∃ s₁ s₂, gst_video_decoder_decode_frame dec_started frame_100_1
          { env_ok with setup_format := none }
        = Outcome.done (GST_FLOW_NOT_NEGOTIATED, { frame_100_1 with input_buffer := none }) s₁ ∧
      s₁.active = true ∧ s₁.v4l2capture.active = false ∧
      gst_video_decoder_decode_frame s₁ frame_150_2 env_ok
        = Outcome.done (GST_FLOW_OK, { frame_150_2 with input_buffer := none }) s₂ ∧
      s₂.v4l2capture.active = true ∧ s₂.processing = true ∧
      s₂.v4l2output.queued = [⟨[7, 7, 7]⟩, ⟨[8, 8]⟩] :=
  ⟨⟨rfl, rfl, rfl⟩, ⟨_, rfl, rfl, rfl, rfl⟩, _, _, rfl, rfl, rfl, rfl, rfl, rfl, rfl⟩

/-! ## Every exit of the capture loop records its cause -/

/-- Claim C17.  An iteration of the capture loop that leaves (failed acquire,
zero-length buffer, failed dequeue, failed emission) clears `processing`,
unblocks the output queue, pauses the task and stores in `output_flow` the
flow result that caused the exit, Ok for the zero-length buffer.  An iteration
that does not leave keeps `processing`, `output_flow`, the output queue and
the state of the task.  One evaluation per exit path follows, on the running
decoder with one pending frame. -/
theorem C17_loop_exit_records_cause (s : GstV4l2VideoDec) (env : LoopEnv) :
    (gst_v4l2_video_dec_loop s env).processing
      = (if (loop_exit_cause s env).isSome then false else s.processing) ∧
    (gst_v4l2_video_dec_loop s env).output_flow
      = (loop_exit_cause s env).getD s.output_flow ∧
    (gst_v4l2_video_dec_loop s env).v4l2output
      = (if (loop_exit_cause s env).isSome then { s.v4l2output with flushing := true }
         else s.v4l2output) ∧
    (gst_v4l2_video_dec_loop s env).task
      = (if (loop_exit_cause s env).isSome then GST_TASK_PAUSED else s.task) ∧
    loop_exit_cause dec_running ⟨GST_FLOW_FLUSHING, ⟨[]⟩, GST_FLOW_OK, GST_FLOW_OK⟩
      = some GST_FLOW_FLUSHING ∧
    loop_exit_cause dec_running ⟨GST_FLOW_OK, ⟨[]⟩, GST_FLOW_ERROR, GST_FLOW_ERROR⟩
      = some GST_FLOW_OK ∧
    loop_exit_cause dec_running ⟨GST_FLOW_OK, ⟨[9]⟩, GST_FLOW_ERROR, GST_FLOW_OK⟩
      = some GST_FLOW_ERROR ∧
    loop_exit_cause dec_running ⟨GST_FLOW_OK, ⟨[9]⟩, GST_FLOW_OK, GST_FLOW_NOT_LINKED⟩
      = some GST_FLOW_NOT_LINKED ∧
    loop_exit_cause dec_running ⟨GST_FLOW_OK, ⟨[9]⟩, GST_FLOW_OK, GST_FLOW_OK⟩ = none ∧
    loop_exit_cause { dec_running with frames := [] }
        ⟨GST_FLOW_OK, ⟨[9]⟩, GST_FLOW_OK, GST_FLOW_NOT_LINKED⟩ = none ∧
    (gst_v4l2_video_dec_loop dec_running
        ⟨GST_FLOW_OK, ⟨[9]⟩, GST_FLOW_OK, GST_FLOW_NOT_LINKED⟩).output_flow
      = GST_FLOW_NOT_LINKED := by
  refine ⟨?_, ?_, ?_, ?_, by decide, by decide, by decide, by decide, by decide, by decide,
    by decide⟩ <;>
  · unfold gst_v4l2_video_dec_loop loop_exit_cause
    simp only []
    cases hold : gst_v4l2_video_dec_get_oldest_frame s.frames <;>
      split_ifs <;>
      simp_all [loop_beach, gst_v4l2_object_unlock, gst_video_decoder_finish_frame,
        gst_v4l2_buffer_pool_process]

/-! ## First frame: the header -/

/-- With codec data in the stream description and an input buffer in the
frame, the result of the header enqueue enters nothing: the value returned and
the state left behind are the same whatever that result is. -/
theorem handle_frame_header_ret_irrelevant (s : GstV4l2VideoDec)
    (frame : GstVideoCodecFrame) (env : HandleFrameEnv) (st : GstVideoCodecState)
    (codec_data b : GstBuffer) (r : GstFlowReturn) (hstate : s.input_state = some st)
    (hcd : st.codec_data = some codec_data) (hbuf : frame.input_buffer = some b) :
    gst_v4l2_video_dec_handle_frame s frame { env with header_ret := r }
      = gst_v4l2_video_dec_handle_frame s frame env := by
  simp only [gst_v4l2_video_dec_handle_frame, handle_frame_capture, handle_frame_negotiate,
    handle_frame_process, handle_frame_enqueue, hstate, hcd, hbuf]

/-- Claim C19.  First frame of a stream: decoder active, capture queue not
configured, capture task neither started nor processing, no error remembered,
frame with an input buffer.

Without codec data in the stream description, the input buffer of the frame
is the header: it is handed to the output queue once and only once, the frame
has no input buffer afterwards, and when the negotiation succeeds the capture
task is started and the value returned is the result of that one enqueue,
without any folding of Flushing.

With codec data, the result of the enqueue of the codec data changes neither
the value returned nor the state left behind, whatever the negotiation does;
when the negotiation succeeds, the codec data and then the input buffer are
handed to the output queue, once each, and the value returned is computed from
the result of the second enqueue alone (folded as for every input buffer). -/
theorem C19_first_frame_header (s : GstV4l2VideoDec) (frame : GstVideoCodecFrame)
    (env : HandleFrameEnv) (st : GstVideoCodecState) (b : GstBuffer)
    (hactive : s.active = true)
    (hout : s.v4l2output.active = true ∨ env.set_format_ok = true)
    (hcap : s.v4l2capture.active = false) (hstate : s.input_state = some st)
    (hproc : s.processing = false) (hflow : s.output_flow = GST_FLOW_OK)
    (htask : s.task ≠ GST_TASK_STARTED) (hbuf : frame.input_buffer = some b) :
    (st.codec_data = none →
      ∃ ret s', gst_v4l2_video_dec_handle_frame s frame env
          = Outcome.done (ret, { frame with input_buffer := none }) s' ∧
        s'.v4l2output.queued = s.v4l2output.queued ++ [b] ∧
        (env.setup_format ≠ none → env.negotiate_ok = true →
          ret = env.header_ret ∧ s'.processing = true ∧ s'.task = GST_TASK_STARTED)) ∧
    (∀ codec_data, st.codec_data = some codec_data →
      (∀ r : GstFlowReturn,
        gst_v4l2_video_dec_handle_frame s frame { env with header_ret := r }
          = gst_v4l2_video_dec_handle_frame s frame env) ∧
      (env.setup_format ≠ none → env.negotiate_ok = true →
        ∃ ret s', gst_v4l2_video_dec_handle_frame s frame env
            = Outcome.done (ret, { frame with input_buffer := none }) s' ∧
          s'.v4l2output.queued = s.v4l2output.queued ++ [codec_data, b] ∧
          ret = (if env.payload_ret = GST_FLOW_FLUSHING then
                  (if s'.processing = false then s'.output_flow else GST_FLOW_FLUSHING)
                 else env.payload_ret))) := by
  obtain ⟨s₀, ⟨-, -, hp, ht, hf, hq, -⟩, heq⟩ :=
    handle_frame_first_frame s frame env st hactive hout hcap hstate
  have hp₀ : s₀.processing = false := hp.trans hproc
  have hf₀ : s₀.output_flow = GST_FLOW_OK := hf.trans hflow
  have ht₀ : s₀.task ≠ GST_TASK_STARTED := by rw [ht]; exact htask
  rw [heq]
  constructor
  · intro hcd
    simp only [hcd, hbuf]
    have hquiet : ∀ x : GstV4l2VideoDec, x.task = s₀.task →
        run_task x env.during_header = x :=
      fun x hx => run_task_not_started x _ (by rw [hx]; exact ht₀)
    unfold handle_frame_negotiate
    simp only []
    rw [hquiet]
    on_goal 2 => rfl
    cases hsetup : env.setup_format with
    | none =>
      refine ⟨_, _, rfl, ?_, ?_⟩
      · simp [gst_video_decoder_drop_frame, gst_v4l2_object_unlock,
          gst_v4l2_buffer_pool_process, gst_v4l2_object_unlock_stop, hq]
      · intro h
        exact absurd rfl h
    | some info =>
      cases hneg : env.negotiate_ok with
      | false =>
        cases hflush : env.srcpad_flushing with
        | false =>
          refine ⟨_, _, rfl, ?_, ?_⟩
          · simp [gst_video_decoder_drop_frame, gst_v4l2_object_unlock,
              gst_v4l2_buffer_pool_process, gst_v4l2_object_unlock_stop, hq]
          · intro _ h
            exact absurd h (by decide)
        | true =>
          refine ⟨_, _, rfl, ?_, ?_⟩
          · simp [gst_video_decoder_drop_frame, gst_v4l2_object_unlock,
              gst_v4l2_buffer_pool_process, gst_v4l2_object_unlock_stop, hq]
          · intro _ h
            exact absurd h (by decide)
      | true =>
        simp only [handle_frame_process, hp₀, hf₀, ne_eq, not_true_eq_false, and_false,
          if_false, if_true, handle_frame_enqueue, Bool.true_eq_false]
        refine ⟨_, _, rfl, ?_, ?_⟩
        · simp [handle_frame_start_task, gst_v4l2_object_unlock,
            gst_v4l2_buffer_pool_process, gst_v4l2_object_unlock_stop, hq]
        · intro _ _
          exact ⟨rfl, rfl, rfl⟩
  · intro codec_data hcd
    refine ⟨fun r =>
      heq ▸ handle_frame_header_ret_irrelevant s frame env st codec_data b r hstate hcd hbuf,
      ?_⟩
    intro hsetup hneg
    simp only [hcd]
    have hquiet : ∀ x : GstV4l2VideoDec, x.task = s₀.task →
        run_task x env.during_header = x :=
      fun x hx => run_task_not_started x _ (by rw [hx]; exact ht₀)
    unfold handle_frame_negotiate
    simp only []
    rw [hquiet]
    on_goal 2 => rfl
    cases hs : env.setup_format with
    | none => exact absurd hs hsetup
    | some info =>
      simp only [hneg, handle_frame_process, hp₀, hf₀, ne_eq, not_true_eq_false, and_false,
        if_false, if_true, Bool.true_eq_false, handle_frame_enqueue, hbuf]
      refine ⟨_, _, rfl, ?_, ?_⟩
      · simp [run_task_output_queued, handle_frame_start_task, gst_v4l2_object_unlock,
          gst_v4l2_buffer_pool_process, gst_v4l2_object_unlock_stop, hq]
      · split_ifs <;> first | rfl | assumption

/-- Claim C19 at concrete inputs: the first frame (ts=100, seq=1) of a stream
without codec data, the header enqueue reporting Flushing; and the same frame
on a stream with codec data, the enqueue of the codec data reporting an
error. -/
theorem C19_first_frame_header_witness :
    (dec_started.active = true ∧
      (dec_started.v4l2output.active = true ∨
        ({ env_ok with header_ret := GST_FLOW_FLUSHING } : HandleFrameEnv).set_format_ok
          = true) ∧
      dec_started.v4l2capture.active = false ∧
      dec_started.input_state = some ⟨["video/x-h264"], none⟩ ∧
      dec_started.processing = false ∧ dec_started.output_flow = GST_FLOW_OK ∧
      dec_started.task ≠ GST_TASK_STARTED ∧ frame_100_1.input_buffer = some ⟨[7, 7, 7]⟩) ∧
    (∃ ret s', gst_v4l2_video_dec_handle_frame dec_started frame_100_1
          { env_ok with header_ret := GST_FLOW_FLUSHING }
        = Outcome.done (ret, { frame_100_1 with input_buffer := none }) s' ∧
      s'.v4l2output.queued = dec_started.v4l2output.queued ++ [⟨[7, 7, 7]⟩] ∧
      (({ env_ok with header_ret := GST_FLOW_FLUSHING } : HandleFrameEnv).setup_format ≠ none →
        ({ env_ok with header_ret := GST_FLOW_FLUSHING } : HandleFrameEnv).negotiate_ok = true →
        ret = ({ env_ok with header_ret := GST_FLOW_FLUSHING } : HandleFrameEnv).header_ret ∧
          s'.processing = true ∧ s'.task = GST_TASK_STARTED)) ∧
    ∃ ret s', gst_v4l2_video_dec_handle_frame dec_started_codec_data frame_100_1
          { env_ok with header_ret := GST_FLOW_ERROR }
        = Outcome.done (ret, { frame_100_1 with input_buffer := none }) s' ∧
      s'.v4l2output.queued
        = dec_started_codec_data.v4l2output.queued ++ [⟨[1, 2]⟩, ⟨[7, 7, 7]⟩] ∧
      ret = (if ({ env_ok with header_ret := GST_FLOW_ERROR } : HandleFrameEnv).payload_ret
                = GST_FLOW_FLUSHING then
              (if s'.processing = false then s'.output_flow else GST_FLOW_FLUSHING)
             else ({ env_ok with header_ret := GST_FLOW_ERROR } : HandleFrameEnv).payload_ret) :=
  ⟨⟨rfl, Or.inr rfl, rfl, rfl, rfl, rfl, by decide, rfl⟩,
    (C19_first_frame_header dec_started frame_100_1
      { env_ok with header_ret := GST_FLOW_FLUSHING } ⟨["video/x-h264"], none⟩ ⟨[7, 7, 7]⟩
      rfl (Or.inr rfl) rfl rfl rfl rfl (by decide) rfl).1 rfl,
    ((C19_first_frame_header dec_started_codec_data frame_100_1
      { env_ok with header_ret := GST_FLOW_ERROR } ⟨["video/x-h264"], some ⟨[1, 2]⟩⟩
      ⟨[7, 7, 7]⟩ rfl (Or.inr rfl) rfl rfl rfl rfl (by decide) rfl).2 ⟨[1, 2]⟩ rfl).2
      (by decide) rfl⟩

/-! ## Accepted submissions -/

/-- The capture task leaves the activation of the capture queue alone. -/
theorem run_task_capture_active (s : GstV4l2VideoDec) (envs : List LoopEnv) :
    (run_task s envs).v4l2capture.active = s.v4l2capture.active :=
  (task_step_run_task envs s).2.2.2.2.1

/-- The capture task leaves the activation of the output queue alone. -/
theorem run_task_output_active (s : GstV4l2VideoDec) (envs : List LoopEnv) :
    (run_task s envs).v4l2output.active = s.v4l2output.active :=
  (task_step_run_task envs s).2.2.2.2.2.1

/-- The capture task leaves the announced output state alone. -/
theorem run_task_output_state (s : GstV4l2VideoDec) (envs : List LoopEnv) :
    (run_task s envs).output_state = s.output_state :=
  (task_step_run_task envs s).2.2.1

/-- The capture task leaves the input state alone. -/
theorem run_task_input_state (s : GstV4l2VideoDec) (envs : List LoopEnv) :
    (run_task s envs).input_state = s.input_state :=
  (task_step_run_task envs s).2.1

/-- The end of a submission with an enqueue that succeeds: the value is Ok,
the frame has no input buffer afterwards, the buffer it had has gone to the
output queue, and neither the configuration of the queues nor `active` has
changed. -/
theorem handle_frame_enqueue_accepts (s : GstV4l2VideoDec) (frame : GstVideoCodecFrame)
    (env : HandleFrameEnv) (r : GstFlowReturn) (hpay : env.payload_ret = GST_FLOW_OK)
    (hret : frame.input_buffer = none → r = GST_FLOW_OK) :
    ∃ s', handle_frame_enqueue s frame env r
        = Outcome.done (GST_FLOW_OK, { frame with input_buffer := none }) s' ∧
      s'.v4l2output.queued = s.v4l2output.queued ++ frame.input_buffer.toList ∧
      s'.v4l2capture.active = s.v4l2capture.active ∧
      s'.v4l2output.active = s.v4l2output.active ∧
      s'.output_state = s.output_state ∧ s'.input_state = s.input_state ∧
      s'.active = s.active := by
  cases hb : frame.input_buffer with
  | none =>
    have hf : ({ frame with input_buffer := none } : GstVideoCodecFrame) = frame := by
      cases frame
      simp_all
    refine ⟨s, ?_, by simp, rfl, rfl, rfl, rfl, rfl⟩
    simp only [handle_frame_enqueue, hb, hret hb, hf]
  | some b =>
    simp only [handle_frame_enqueue, hb, hpay, reduceCtorEq, if_false]
    refine ⟨_, rfl, ?_, ?_, ?_, ?_, ?_, ?_⟩
    · simp [run_task_output_queued, gst_v4l2_buffer_pool_process]
    · simp [run_task_capture_active]
    · simp [run_task_output_active, gst_v4l2_buffer_pool_process]
    · simp [run_task_output_state]
    · simp [run_task_input_state]
    · simp [run_task_active]

/-- The last part of a submission when no error is remembered and the enqueue
succeeds: the value is Ok; and when the capture task was not processing, the
submission is: start the capture task, then enqueue. -/
theorem handle_frame_process_accepts (s : GstV4l2VideoDec) (frame : GstVideoCodecFrame)
    (env : HandleFrameEnv) (r : GstFlowReturn) (hflow : s.output_flow = GST_FLOW_OK)
    (hpay : env.payload_ret = GST_FLOW_OK)
    (hret : frame.input_buffer = none → r = GST_FLOW_OK) :
    ∃ s', handle_frame_process s frame env r
        = Outcome.done (GST_FLOW_OK, { frame with input_buffer := none }) s' ∧
      s'.v4l2output.queued = s.v4l2output.queued ++ frame.input_buffer.toList ∧
      s'.v4l2capture.active = s.v4l2capture.active ∧
      s'.v4l2output.active = s.v4l2output.active ∧
      s'.output_state = s.output_state ∧ s'.input_state = s.input_state ∧
      s'.active = s.active ∧
      (s.processing = false →
        handle_frame_process s frame env r
          = handle_frame_enqueue (handle_frame_start_task s) frame env r) := by
  have hguard : ¬ (s.processing = false ∧ s.output_flow ≠ GST_FLOW_OK) :=
    fun h => h.2 hflow
  by_cases hp : s.processing = false
  · have hstep : handle_frame_process s frame env r
        = handle_frame_enqueue (handle_frame_start_task s) frame env r := by
      unfold handle_frame_process
      rw [if_neg hguard]
      simp only [hp, if_true]
    obtain ⟨s', h, hq, hc, ho, hs, hi, ha⟩ :=
      handle_frame_enqueue_accepts (handle_frame_start_task s) frame env r hpay hret
    refine ⟨s', hstep.trans h, ?_, hc, ?_, hs, hi, ha, fun _ => hstep⟩
    · rw [hq]
      rfl
    · rw [ho]
      rfl
  · have hstep : handle_frame_process s frame env r = handle_frame_enqueue s frame env r := by
      unfold handle_frame_process
      rw [if_neg hguard]
      simp only [hp, if_false, Bool.true_eq_false]
    obtain ⟨s', h, hq, hc, ho, hs, hi, ha⟩ :=
      handle_frame_enqueue_accepts s frame env r hpay hret
    exact ⟨s', hstep.trans h, hq, hc, ho, hs, hi, ha, fun h' => absurd h' hp⟩

/-- The first-frame part of a submission when the capture task is not started,
no error is remembered, the negotiation succeeds and the enqueues succeed: the
value is Ok, the header and then the input buffer the frame still has have
gone to the output queue, the capture queue is configured and the format
reported by the device is announced; and when the capture task was not
processing, the submission ends with: start the capture task, then enqueue. -/
theorem handle_frame_negotiate_accepts (s : GstV4l2VideoDec) (frame : GstVideoCodecFrame)
    (env : HandleFrameEnv) (codec_data : GstBuffer) (info : GstVideoInfo)
    (htask : s.task ≠ GST_TASK_STARTED) (hflow : s.output_flow = GST_FLOW_OK)
    (hsetup : env.setup_format = some info) (hneg : env.negotiate_ok = true)
    (hpay : env.payload_ret = GST_FLOW_OK)
    (hret : frame.input_buffer = none → env.header_ret = GST_FLOW_OK) :
    ∃ s', handle_frame_negotiate s frame env codec_data
        = Outcome.done (GST_FLOW_OK, { frame with input_buffer := none }) s' ∧
      s'.v4l2output.queued
        = s.v4l2output.queued ++ codec_data :: frame.input_buffer.toList ∧
      s'.v4l2capture.active = true ∧ s'.v4l2output.active = s.v4l2output.active ∧
      s'.output_state = some info ∧ s'.input_state = s.input_state ∧
      s'.active = s.active ∧
      (s.processing = false →
        ∃ s₁ : GstV4l2VideoDec, s₁.task = GST_TASK_STARTED ∧ s₁.processing = true ∧
          s₁.output_flow = GST_FLOW_OK ∧
          handle_frame_negotiate s frame env codec_data
            = handle_frame_enqueue s₁ frame env env.header_ret) := by
  have heq : handle_frame_negotiate s frame env codec_data
      = handle_frame_process
          { s with
            v4l2output := gst_v4l2_object_unlock
              (gst_v4l2_buffer_pool_process (gst_v4l2_object_unlock_stop s.v4l2output)
                codec_data)
            output_state := some info
            v4l2capture := { s.v4l2capture with active := true } }
          frame env env.header_ret := by
    unfold handle_frame_negotiate
    simp only []
    rw [run_task_not_started]
    on_goal 2 => exact htask
    simp only [hsetup, hneg, Bool.true_eq_false, if_false]
  obtain ⟨s', h, hq, hc, ho, hs, hi, ha, hstart⟩ := handle_frame_process_accepts
    { s with
      v4l2output := gst_v4l2_object_unlock
        (gst_v4l2_buffer_pool_process (gst_v4l2_object_unlock_stop s.v4l2output) codec_data)
      output_state := some info
      v4l2capture := { s.v4l2capture with active := true } }
    frame env env.header_ret hflow hpay hret
  refine ⟨s', heq.trans h, ?_, hc, ?_, hs, hi, ha, ?_⟩
  · rw [hq]
    simp [gst_v4l2_object_unlock, gst_v4l2_buffer_pool_process, gst_v4l2_object_unlock_stop]
  · rw [ho]
    rfl
  · intro hp
    refine ⟨_, ?_, ?_, ?_, heq.trans (hstart hp)⟩
    · rfl
    · rfl
    · exact hflow

/-- A failed negotiation on the first frame while the capture task is not
started: the frame is dropped in a state that differs from the entry state in
the output queue (unblocked, one header more) and perhaps in the announced
output state only; in particular the capture queue is still not configured. -/
theorem handle_frame_negotiate_fails_quiet (s : GstV4l2VideoDec)
    (frame : GstVideoCodecFrame) (env : HandleFrameEnv) (codec_data : GstBuffer)
    (htask : s.task ≠ GST_TASK_STARTED)
    (hfail : env.setup_format = none ∨ env.negotiate_ok = false) :
    ∃ s₁, handle_frame_negotiate s frame env codec_data
        = handle_frame_drop s₁ frame
            (if env.setup_format ≠ none ∧ env.srcpad_flushing = true then GST_FLOW_FLUSHING
             else GST_FLOW_NOT_NEGOTIATED) ∧
      s₁.active = s.active ∧ s₁.v4l2capture = s.v4l2capture ∧
      s₁.v4l2output.active = s.v4l2output.active ∧ s₁.input_state = s.input_state ∧
      s₁.processing = s.processing ∧ s₁.task = s.task ∧ s₁.output_flow = s.output_flow ∧
      s₁.dropped = s.dropped ∧
      s₁.v4l2output.queued = s.v4l2output.queued ++ [codec_data] := by
  unfold handle_frame_negotiate
  simp only []
  rw [run_task_not_started]
  on_goal 2 => exact htask
  have hq : (gst_v4l2_object_unlock
      (gst_v4l2_buffer_pool_process (gst_v4l2_object_unlock_stop s.v4l2output)
        codec_data)).queued = s.v4l2output.queued ++ [codec_data] := rfl
  cases hsetup : env.setup_format with
  | none =>
    simp only [handle_frame_not_negotiated, ne_eq, not_true_eq_false, false_and, if_false]
    exact ⟨_, rfl, rfl, rfl, rfl, rfl, rfl, rfl, rfl, rfl, hq⟩
  | some info =>
    have hneg : env.negotiate_ok = false := by
      rcases hfail with h | h
      · rw [hsetup] at h
        exact absurd h (by simp)
      · exact h
    cases hflush : env.srcpad_flushing with
    | false =>
      simp only [hneg, handle_frame_not_negotiated, ne_eq, reduceCtorEq, not_false_eq_true,
        true_and, if_true, Bool.false_eq_true, if_false]
      exact ⟨_, rfl, rfl, rfl, rfl, rfl, rfl, rfl, rfl, rfl, hq⟩
    | true =>
      simp only [hneg, handle_frame_flushing, ne_eq, reduceCtorEq, not_false_eq_true,
        true_and, if_true]
      exact ⟨_, rfl, rfl, rfl, rfl, rfl, rfl, rfl, rfl, rfl, hq⟩

/-- A submission that is accepted.  The decoder is active and remembers no
error; every device call the submission makes succeeds: the configuration of
the output queue if that queue is not configured, the capture format setup,
the downstream negotiation and the header enqueue if the capture queue is not
configured, and the enqueue of the input buffer.  Then the value is Ok, the
frame has no input buffer afterwards, both queues are configured, the output
queue has received the codec data of the stream (if a header had to be sent
and the stream has codec data) and then the input buffer, and a negotiation
that took place has announced the format reported by the device.  When the
capture task was not processing, the submission ends with: start the capture
task, then enqueue. -/
theorem handle_frame_accepts (s : GstV4l2VideoDec) (frame : GstVideoCodecFrame)
    (env : HandleFrameEnv) (b : GstBuffer)
    (hactive : s.active = true) (hflow : s.output_flow = GST_FLOW_OK)
    (htask : s.v4l2capture.active = false → s.task ≠ GST_TASK_STARTED)
    (hfmt : s.v4l2output.active = false → env.set_format_ok = true)
    (hstate : s.v4l2output.active = false ∨ s.v4l2capture.active = false →
      s.input_state ≠ none)
    (hfirst : s.v4l2capture.active = false →
      env.setup_format ≠ none ∧ env.negotiate_ok = true ∧ env.header_ret = GST_FLOW_OK)
    (hbuf : frame.input_buffer = some b) (hpay : env.payload_ret = GST_FLOW_OK) :
    ∃ s', gst_v4l2_video_dec_handle_frame s frame env
        = Outcome.done (GST_FLOW_OK, { frame with input_buffer := none }) s' ∧
      s'.active = true ∧ s'.v4l2output.active = true ∧ s'.v4l2capture.active = true ∧
      (s.v4l2capture.active = false → s'.output_state = env.setup_format) ∧
      s'.v4l2output.queued
        = s.v4l2output.queued ++
          (if s.v4l2capture.active = false then
            (s.input_state.bind GstVideoCodecState.codec_data).toList else []) ++ [b] ∧
      (s.processing = false →
        ∃ (s₁ : GstV4l2VideoDec) (frame₁ : GstVideoCodecFrame) (r : GstFlowReturn),
          s₁.task = GST_TASK_STARTED ∧ s₁.processing = true ∧
          s₁.output_flow = GST_FLOW_OK ∧
          gst_v4l2_video_dec_handle_frame s frame env
            = handle_frame_enqueue s₁ frame₁ env r) := by
  have hret : frame.input_buffer = none → GST_FLOW_OK = GST_FLOW_OK := fun _ => rfl
  by_cases hc : s.v4l2capture.active = true
  · -- the capture queue is configured: no header, no negotiation
    have hc' : ¬ s.v4l2capture.active = false := by simp [hc]
    by_cases ho : s.v4l2output.active = true
    · have heq : gst_v4l2_video_dec_handle_frame s frame env
          = handle_frame_process s frame env GST_FLOW_OK := by
        simp only [gst_v4l2_video_dec_handle_frame, handle_frame_capture, hactive, ho, hc,
          Bool.true_eq_false, if_false]
      obtain ⟨s', h, hq, hca, hoa, -, -, ha, hstart⟩ :=
        handle_frame_process_accepts s frame env GST_FLOW_OK hflow hpay hret
      refine ⟨s', heq.trans h, ha.trans hactive, hoa.trans ho, hca.trans hc,
        fun h' => absurd h' hc', ?_, ?_⟩
      · rw [hq, hbuf, if_neg hc']
        simp
      · intro hp
        exact ⟨handle_frame_start_task s, frame, GST_FLOW_OK, rfl, rfl, hflow,
          heq.trans (hstart hp)⟩
    · have ho' : s.v4l2output.active = false := by
        cases h : s.v4l2output.active
        · rfl
        · exact absurd h ho
      obtain ⟨st, hst⟩ := Option.ne_none_iff_exists'.mp (hstate (Or.inl ho'))
      have heq : gst_v4l2_video_dec_handle_frame s frame env
          = handle_frame_process
              { s with v4l2output := gst_v4l2_object_set_format s.v4l2output st.caps true }
              frame env GST_FLOW_OK := by
        simp only [gst_v4l2_video_dec_handle_frame, handle_frame_capture, hactive, ho', hc,
          hst, hfmt ho', Bool.true_eq_false, if_false, if_true]
      obtain ⟨s', h, hq, hca, hoa, -, -, ha, hstart⟩ := handle_frame_process_accepts
        { s with v4l2output := gst_v4l2_object_set_format s.v4l2output st.caps true }
        frame env GST_FLOW_OK hflow hpay hret
      refine ⟨s', heq.trans h, ha.trans hactive, ?_, hca.trans hc,
        fun h' => absurd h' hc', ?_, ?_⟩
      · rw [hoa]
        simp [gst_v4l2_object_set_format]
      · rw [hq, hbuf, if_neg hc']
        simp [gst_v4l2_object_set_format]
      · intro hp
        refine ⟨_, frame, GST_FLOW_OK, ?_, ?_, ?_, heq.trans (hstart hp)⟩
        · rfl
        · rfl
        · exact hflow
  · -- the capture queue is not configured: first frame
    have hc' : s.v4l2capture.active = false := by
      cases h : s.v4l2capture.active
      · rfl
      · exact absurd h hc
    obtain ⟨st, hst⟩ := Option.ne_none_iff_exists'.mp (hstate (Or.inr hc'))
    obtain ⟨hsetup, hneg, hhdr⟩ := hfirst hc'
    obtain ⟨info, hinfo⟩ := Option.ne_none_iff_exists'.mp hsetup
    have hout : s.v4l2output.active = true ∨ env.set_format_ok = true := by
      cases h : s.v4l2output.active
      · exact Or.inr (hfmt h)
      · exact Or.inl rfl
    obtain ⟨s₀, ⟨-, ha₀, hp₀, ht₀, hf₀, hq₀, -, -, -, ho₀⟩, heq⟩ :=
      handle_frame_first_frame s frame env st hactive hout hc' hst
    have htask₀ : s₀.task ≠ GST_TASK_STARTED := by
      rw [ht₀]
      exact htask hc'
    rw [heq, if_pos hc', hst, hinfo]
    cases hcd : st.codec_data with
    | some codec_data =>
      obtain ⟨s', h, hq, hca, hoa, hs, -, ha, hstart⟩ :=
        handle_frame_negotiate_accepts s₀ frame env codec_data info htask₀
          (hf₀.trans hflow) hinfo hneg hpay (fun h => absurd (h ▸ hbuf) (by simp))
      refine ⟨s', h, ha.trans (ha₀.trans hactive), hoa.trans ho₀, hca, fun _ => hs, ?_, ?_⟩
      · rw [hq, hq₀, hbuf]
        simp [hcd]
      · intro hp
        obtain ⟨s₁, h1, h2, h3, h4⟩ := hstart (hp₀.trans hp)
        exact ⟨s₁, frame, env.header_ret, h1, h2, h3, h4⟩
    | none =>
      simp only [hbuf]
      obtain ⟨s', h, hq, hca, hoa, hs, -, ha, hstart⟩ :=
        handle_frame_negotiate_accepts
          { s₀ with frames := set_input_buffer s₀.frames frame none }
          { frame with input_buffer := none } env b info htask₀
          (hf₀.trans hflow) hinfo hneg hpay (fun _ => hhdr)
      refine ⟨s', h, ha.trans (ha₀.trans hactive), hoa.trans ho₀, hca, fun _ => hs, ?_, ?_⟩
      · rw [hq]
        simp [hq₀, hcd]
      · intro hp
        obtain ⟨s₁, h1, h2, h3, h4⟩ := hstart (hp₀.trans hp)
        exact ⟨s₁, { frame with input_buffer := none }, env.header_ret, h1, h2, h3, h4⟩

/-- A first frame whose negotiation fails while the capture task is not
started: the frame is dropped, and the decoder is left active, with the output
queue configured, the capture queue as it was (not configured), the input
state, `processing`, the task and `output_flow` unchanged. -/
theorem handle_frame_first_frame_fails (s : GstV4l2VideoDec) (frame : GstVideoCodecFrame)
    (env : HandleFrameEnv) (st : GstVideoCodecState) (hactive : s.active = true)
    (hout : s.v4l2output.active = true ∨ env.set_format_ok = true)
    (hcap : s.v4l2capture.active = false) (hstate : s.input_state = some st)
    (hheader : st.codec_data ≠ none ∨ frame.input_buffer ≠ none)
    (htask : s.task ≠ GST_TASK_STARTED)
    (hfail : env.setup_format = none ∨ env.negotiate_ok = false) :
    ∃ frame' s₁, gst_v4l2_video_dec_handle_frame s frame env
        = Outcome.done
            (if env.setup_format ≠ none ∧ env.srcpad_flushing = true then GST_FLOW_FLUSHING
             else GST_FLOW_NOT_NEGOTIATED, frame') s₁ ∧
      s₁.active = true ∧ s₁.v4l2capture = s.v4l2capture ∧ s₁.v4l2output.active = true ∧
      s₁.input_state = some st ∧ s₁.processing = s.processing ∧ s₁.task = s.task ∧
      s₁.output_flow = s.output_flow ∧ s₁.dropped = s.dropped ++ [frame'] := by
  obtain ⟨s₀, ⟨hd, ha, hp, ht, hf, -, -, hc, hi, ho⟩, heq⟩ :=
    handle_frame_first_frame s frame env st hactive hout hcap hstate
  have htask₀ : s₀.task ≠ GST_TASK_STARTED := by
    rw [ht]
    exact htask
  rw [heq]
  cases hcd : st.codec_data with
  | some codec_data =>
    obtain ⟨s₁, h, h1, h2, h3, h4, h5, h6, h7, h8, -⟩ :=
      handle_frame_negotiate_fails_quiet s₀ frame env codec_data htask₀ hfail
    refine ⟨frame, gst_video_decoder_drop_frame s₁ frame, ?_, h1.trans (ha.trans hactive),
      h2.trans hc, h3.trans ho, h4.trans (hi.trans hstate), h5.trans hp, h6.trans ht,
      h7.trans hf, ?_⟩
    · simp only [h, handle_frame_drop]
    · simp only [gst_video_decoder_drop_frame, h8, hd]
  | none =>
    cases hb : frame.input_buffer with
    | none =>
      rcases hheader with h | h
      · exact absurd hcd h
      · exact absurd hb h
    | some b =>
      obtain ⟨s₁, h, h1, h2, h3, h4, h5, h6, h7, h8, -⟩ :=
        handle_frame_negotiate_fails_quiet
          { s₀ with frames := set_input_buffer s₀.frames frame none }
          { frame with input_buffer := none } env b htask₀ hfail
      refine ⟨{ frame with input_buffer := none },
        gst_video_decoder_drop_frame s₁ { frame with input_buffer := none }, ?_,
        h1.trans (ha.trans hactive), h2.trans hc, h3.trans ho, h4.trans (hi.trans hstate),
        h5.trans hp, h6.trans ht, h7.trans hf, ?_⟩
      · simp only [h, handle_frame_drop]
      · simp only [gst_video_decoder_drop_frame, h8]
        rw [← hd]

/-! ## Flush followed by an accepted submission -/

/-- While the capture loop of an active decoder with both queues configured is
stopped with a remembered result other than Ok, every submission of a
sequence is rejected: after the whole sequence both queues, the announced
output state, the task, `processing` and `output_flow` are what they were, and
every frame of the sequence has been dropped. -/
theorem run_submits_rejected (subs : List (GstVideoCodecFrame × HandleFrameEnv)) :
    ∀ t : GstV4l2VideoDec, t.active = true → t.v4l2output.active = true →
      t.v4l2capture.active = true → t.processing = false →
      t.output_flow ≠ GST_FLOW_OK →
      (run t (subs.map fun p => Event.submit p.1 p.2)).processing = false ∧
      (run t (subs.map fun p => Event.submit p.1 p.2)).output_flow = t.output_flow ∧
      (run t (subs.map fun p => Event.submit p.1 p.2)).v4l2output = t.v4l2output ∧
      (run t (subs.map fun p => Event.submit p.1 p.2)).v4l2capture = t.v4l2capture ∧
      (run t (subs.map fun p => Event.submit p.1 p.2)).output_state = t.output_state ∧
      (run t (subs.map fun p => Event.submit p.1 p.2)).task = t.task ∧
      (run t (subs.map fun p => Event.submit p.1 p.2)).active = true ∧
      (run t (subs.map fun p => Event.submit p.1 p.2)).dropped.length
        = t.dropped.length + subs.length := by
  induction subs with
  | nil =>
    intro t ha _ _ hp _
    exact ⟨hp, rfl, rfl, rfl, rfl, rfl, ha, rfl⟩
  | cons p subs ih =>
    intro t ha ho hc hp hf
    have hstep : gst_video_decoder_decode_frame t p.1 p.2
        = Outcome.done (t.output_flow, p.1)
            (gst_video_decoder_drop_frame { t with frames := t.frames ++ [p.1] } p.1) := by
      simp [gst_video_decoder_decode_frame, gst_v4l2_video_dec_handle_frame,
        handle_frame_capture, handle_frame_process, ha, ho, hc, hp, hf, handle_frame_drop]
    obtain ⟨h1, h2, h3, h4, h5, h6, h7, h8⟩ :=
      ih (gst_video_decoder_drop_frame { t with frames := t.frames ++ [p.1] } p.1)
        ha ho hc hp hf
    simp only [List.map_cons, run, hstep]
    refine ⟨h1, h2, h3, h4, h5, h6, h7, ?_⟩
    rw [h8]
    simp [gst_video_decoder_drop_frame]
    omega

/-- Claim C16, amended.

No error clears `active`: neither an iteration of the capture loop nor a
submission ever changes it; it is cleared by the state change from PAUSED to
READY and by nothing else in a state change, and from then on every
submission is rejected with Flushing.

Once the capture loop of an active decoder with both queues configured has
stopped with a result other than Ok, the next submission is rejected with that
result, without enqueuing input, without negotiating and without restarting
the capture task, and so is every submission of any sequence that follows.
This lasts until `output_flow` is reset: flush and start both reset it to Ok
(start also sets `active`), and after either a submission whose enqueue
succeeds is accepted with Ok, starts the capture task and hands its input
buffer to the output queue.

A first-frame submission that fails with NotNegotiated leaves the decoder
active with the capture queue still unconfigured, and the next submission
negotiates again: if the capture format setup, the downstream negotiation and
the enqueues now succeed, it returns Ok, the header has been sent again, the
capture queue is configured and the format now reported is announced. -/
theorem C16_active_cleared_only_by_state_change (s : GstV4l2VideoDec)
    (frame : GstVideoCodecFrame) (env : HandleFrameEnv) (lenv : LoopEnv)
    (hactive : s.active = true) (hout : s.v4l2output.active = true)
    (hcap : s.v4l2capture.active = true)
    (hstop : (gst_v4l2_video_dec_loop s lenv).processing = false)
    (herr : (gst_v4l2_video_dec_loop s lenv).output_flow ≠ GST_FLOW_OK) :
    (gst_v4l2_video_dec_loop s lenv).active = true ∧
    gst_v4l2_video_dec_handle_frame (gst_v4l2_video_dec_loop s lenv) frame env
      = Outcome.done ((gst_v4l2_video_dec_loop s lenv).output_flow, frame)
          { gst_v4l2_video_dec_loop s lenv with
            frames := gst_video_decoder_release_frame
              (gst_v4l2_video_dec_loop s lenv).frames frame
            dropped := (gst_v4l2_video_dec_loop s lenv).dropped ++ [frame] } ∧
    (∀ (s₀ : GstV4l2VideoDec) (frame₀ : GstVideoCodecFrame) (env₀ : HandleFrameEnv),
      (gst_v4l2_video_dec_handle_frame s₀ frame₀ env₀).state.active = s₀.active) ∧
    (∀ (s₀ : GstV4l2VideoDec) (lenv₀ : LoopEnv),
      (gst_v4l2_video_dec_loop s₀ lenv₀).active = s₀.active) ∧
    (∀ (s₀ : GstV4l2VideoDec) (t : GstStateChange),
      (gst_v4l2_video_dec_change_state s₀ t).active
        = (if t = GST_STATE_CHANGE_PAUSED_TO_READY then false else s₀.active)) ∧
    (∀ (s₀ : GstV4l2VideoDec) (frame₀ : GstVideoCodecFrame) (env₀ : HandleFrameEnv),
      gst_v4l2_video_dec_handle_frame
          (gst_v4l2_video_dec_change_state s₀ GST_STATE_CHANGE_PAUSED_TO_READY) frame₀ env₀
        = Outcome.done (GST_FLOW_FLUSHING, frame₀)
            (gst_video_decoder_drop_frame
              (gst_v4l2_video_dec_change_state s₀ GST_STATE_CHANGE_PAUSED_TO_READY)
              frame₀)) ∧
    -- every later submission is rejected as long as nothing resets `output_flow`
    (∀ subs : List (GstVideoCodecFrame × HandleFrameEnv),
      (run (gst_v4l2_video_dec_loop s lenv)
          (subs.map fun p => Event.submit p.1 p.2)).processing = false ∧
      (run (gst_v4l2_video_dec_loop s lenv)
          (subs.map fun p => Event.submit p.1 p.2)).output_flow
        = (gst_v4l2_video_dec_loop s lenv).output_flow ∧
      (run (gst_v4l2_video_dec_loop s lenv)
          (subs.map fun p => Event.submit p.1 p.2)).v4l2output
        = (gst_v4l2_video_dec_loop s lenv).v4l2output ∧
      (run (gst_v4l2_video_dec_loop s lenv)
          (subs.map fun p => Event.submit p.1 p.2)).v4l2capture
        = (gst_v4l2_video_dec_loop s lenv).v4l2capture ∧
      (run (gst_v4l2_video_dec_loop s lenv)
          (subs.map fun p => Event.submit p.1 p.2)).task
        = (gst_v4l2_video_dec_loop s lenv).task ∧
      (run (gst_v4l2_video_dec_loop s lenv)
          (subs.map fun p => Event.submit p.1 p.2)).dropped.length
        = (gst_v4l2_video_dec_loop s lenv).dropped.length + subs.length) ∧
    -- flush and start reset `output_flow`, and the next submission is accepted
    ((gst_v4l2_video_dec_flush (gst_v4l2_video_dec_loop s lenv)).2.output_flow = GST_FLOW_OK ∧
      (gst_v4l2_video_dec_start (gst_v4l2_video_dec_loop s lenv)).2.output_flow
        = GST_FLOW_OK ∧
      (gst_v4l2_video_dec_start (gst_v4l2_video_dec_loop s lenv)).2.active = true) ∧
    (∀ (frame₁ : GstVideoCodecFrame) (env₁ : HandleFrameEnv) (b₁ : GstBuffer),
      frame₁.input_buffer = some b₁ → env₁.payload_ret = GST_FLOW_OK →
      (∃ s' s₁ frame' r,
        gst_v4l2_video_dec_handle_frame
            (gst_v4l2_video_dec_flush (gst_v4l2_video_dec_loop s lenv)).2 frame₁ env₁
          = Outcome.done (GST_FLOW_OK, { frame₁ with input_buffer := none }) s' ∧
        s'.v4l2output.queued = s.v4l2output.queued ++ [b₁] ∧
        s₁.task = GST_TASK_STARTED ∧ s₁.processing = true ∧
        gst_v4l2_video_dec_handle_frame
            (gst_v4l2_video_dec_flush (gst_v4l2_video_dec_loop s lenv)).2 frame₁ env₁
          = handle_frame_enqueue s₁ frame' env₁ r) ∧
      (∃ s' s₁ frame' r,
        gst_v4l2_video_dec_handle_frame
            (gst_v4l2_video_dec_start (gst_v4l2_video_dec_loop s lenv)).2 frame₁ env₁
          = Outcome.done (GST_FLOW_OK, { frame₁ with input_buffer := none }) s' ∧
        s'.v4l2output.queued = s.v4l2output.queued ++ [b₁] ∧
        s₁.task = GST_TASK_STARTED ∧ s₁.processing = true ∧
        gst_v4l2_video_dec_handle_frame
            (gst_v4l2_video_dec_start (gst_v4l2_video_dec_loop s lenv)).2 frame₁ env₁
          = handle_frame_enqueue s₁ frame' env₁ r)) ∧
    -- after NotNegotiated the next submission negotiates again
    (∀ (s₀ : GstV4l2VideoDec) (frame₀ : GstVideoCodecFrame) (env₀ : HandleFrameEnv)
      (st₀ : GstVideoCodecState),
      s₀.active = true → (s₀.v4l2output.active = true ∨ env₀.set_format_ok = true) →
      s₀.v4l2capture.active = false → s₀.input_state = some st₀ →
      (st₀.codec_data ≠ none ∨ frame₀.input_buffer ≠ none) →
      s₀.task ≠ GST_TASK_STARTED → s₀.output_flow = GST_FLOW_OK →
      (env₀.setup_format = none ∨
        (env₀.negotiate_ok = false ∧ env₀.srcpad_flushing = false)) →
      ∃ frame' s₁, gst_v4l2_video_dec_handle_frame s₀ frame₀ env₀
          = Outcome.done (GST_FLOW_NOT_NEGOTIATED, frame') s₁ ∧
        s₁.active = true ∧ s₁.v4l2capture.active = false ∧
        ∀ (frame₂ : GstVideoCodecFrame) (env₂ : HandleFrameEnv) (b₂ : GstBuffer),
          frame₂.input_buffer = some b₂ → env₂.setup_format ≠ none →
          env₂.negotiate_ok = true → env₂.header_ret = GST_FLOW_OK →
          env₂.payload_ret = GST_FLOW_OK →
          ∃ s₂, gst_v4l2_video_dec_handle_frame s₁ frame₂ env₂
              = Outcome.done (GST_FLOW_OK, { frame₂ with input_buffer := none }) s₂ ∧
            s₂.v4l2capture.active = true ∧ s₂.output_state = env₂.setup_format ∧
            s₂.v4l2output.queued
              = s₁.v4l2output.queued ++ st₀.codec_data.toList ++ [b₂]) := by
  obtain ⟨ha, -, -, -, hc, ho, hq, -, -⟩ := task_step_loop s lenv
  have ha' := ha.trans hactive
  have ho' := ho.trans hout
  have hc' := hc.trans hcap
  have hcne : ¬ (gst_v4l2_video_dec_loop s lenv).v4l2capture.active = false := by
    rw [hc']
    decide
  have hone : ¬ (gst_v4l2_video_dec_loop s lenv).v4l2output.active = false := by
    rw [ho']
    decide
  refine ⟨ha', ?_, handle_frame_active, fun s₀ lenv₀ => (task_step_loop s₀ lenv₀).1,
    ?_, ?_, ?_, ⟨rfl, rfl, rfl⟩, ?_, ?_⟩
  · simp [gst_v4l2_video_dec_handle_frame, handle_frame_capture, handle_frame_process,
      ha', ho', hc', hstop, herr, handle_frame_drop, gst_video_decoder_drop_frame]
  · intro s₀ t
    unfold gst_v4l2_video_dec_change_state
    split_ifs <;> rfl
  · intro s₀ frame₀ env₀
    simp [gst_v4l2_video_dec_handle_frame, gst_v4l2_video_dec_change_state,
      handle_frame_flushing, handle_frame_drop]
  · intro subs
    obtain ⟨h1, h2, h3, h4, -, h6, -, h8⟩ :=
      run_submits_rejected subs (gst_v4l2_video_dec_loop s lenv) ha' ho' hc' hstop herr
    exact ⟨h1, h2, h3, h4, h6, h8⟩
  · intro frame₁ env₁ b₁ hbuf hpay
    constructor
    · obtain ⟨s', h, -, -, -, -, hq', hstart⟩ := handle_frame_accepts
        (gst_v4l2_video_dec_flush (gst_v4l2_video_dec_loop s lenv)).2 frame₁ env₁ b₁
        ha' rfl (fun h => absurd h hcne) (fun h => absurd h hone)
        (fun h => h.elim (fun h => absurd h hone) (fun h => absurd h hcne))
        (fun h => absurd h hcne) hbuf hpay
      obtain ⟨s₁, frame', r, h1, h2, -, h4⟩ := hstart hstop
      refine ⟨s', s₁, frame', r, h, ?_, h1, h2, h4⟩
      rw [hq', if_neg (show ¬ (gst_v4l2_video_dec_flush
        (gst_v4l2_video_dec_loop s lenv)).2.v4l2capture.active = false from hcne)]
      simp [gst_v4l2_video_dec_flush, gst_v4l2_buffer_pool_flush, hq]
    · obtain ⟨s', h, -, -, -, -, hq', hstart⟩ := handle_frame_accepts
        (gst_v4l2_video_dec_start (gst_v4l2_video_dec_loop s lenv)).2 frame₁ env₁ b₁
        rfl rfl (fun h => absurd h hcne)
        (fun h => absurd (show (gst_v4l2_video_dec_loop s lenv).v4l2output.active = false
          from h) hone)
        (fun h => h.elim
          (fun h => absurd (show (gst_v4l2_video_dec_loop s lenv).v4l2output.active = false
            from h) hone)
          (fun h => absurd h hcne))
        (fun h => absurd h hcne) hbuf hpay
      obtain ⟨s₁, frame', r, h1, h2, -, h4⟩ := hstart hstop
      refine ⟨s', s₁, frame', r, h, ?_, h1, h2, h4⟩
      rw [hq', if_neg (show ¬ (gst_v4l2_video_dec_start
        (gst_v4l2_video_dec_loop s lenv)).2.v4l2capture.active = false from hcne)]
      simp [gst_v4l2_video_dec_start, gst_v4l2_object_unlock, hq]
  · intro s₀ frame₀ env₀ st₀ h0a h0o h0c h0s h0h h0t h0f h0fail
    have hfail : env₀.setup_format = none ∨ env₀.negotiate_ok = false :=
      h0fail.elim Or.inl (fun h => Or.inr h.1)
    have hres : (if env₀.setup_format ≠ none ∧ env₀.srcpad_flushing = true
        then GST_FLOW_FLUSHING else GST_FLOW_NOT_NEGOTIATED) = GST_FLOW_NOT_NEGOTIATED := by
      rcases h0fail with h | ⟨-, h⟩
      · simp [h]
      · simp [h]
    obtain ⟨frame', s₁, h, h1, h2, h3, h4, -, h6, h7, -⟩ :=
      handle_frame_first_frame_fails s₀ frame₀ env₀ st₀ h0a h0o h0c h0s h0h h0t hfail
    rw [hres] at h
    have hc₁ : s₁.v4l2capture.active = false := by
      rw [h2]
      exact h0c
    refine ⟨frame', s₁, h, h1, hc₁, ?_⟩
    intro frame₂ env₂ b₂ hbuf hsetup hneg hhdr hpay
    obtain ⟨s₂, h', -, -, hca, hos, hq', -⟩ := handle_frame_accepts s₁ frame₂ env₂ b₂ h1
      (h7.trans h0f) (fun _ => by rw [h6]; exact h0t)
      (fun h => absurd h (by rw [h3]; decide))
      (fun _ => by rw [h4]; exact Option.some_ne_none st₀)
      (fun _ => ⟨hsetup, hneg, hhdr⟩) hbuf hpay
    refine ⟨s₂, h', hca, hos hc₁, ?_⟩
    rw [hq', if_pos hc₁, h4]
    rfl

/-- Claim C16, amended, at a concrete input: the capture loop of the running
decoder stops on a device error reported by the buffer pool. -/
theorem C16_active_cleared_only_by_state_change_witness :
    (dec_running.active = true ∧ dec_running.v4l2output.active = true ∧
      dec_running.v4l2capture.active = true ∧
      (gst_v4l2_video_dec_loop dec_running
        ⟨GST_FLOW_ERROR, ⟨[]⟩, GST_FLOW_OK, GST_FLOW_OK⟩).processing = false ∧
      (gst_v4l2_video_dec_loop dec_running
        ⟨GST_FLOW_ERROR, ⟨[]⟩, GST_FLOW_OK, GST_FLOW_OK⟩).output_flow ≠ GST_FLOW_OK) ∧
    (gst_v4l2_video_dec_loop dec_running
      ⟨GST_FLOW_ERROR, ⟨[]⟩, GST_FLOW_OK, GST_FLOW_OK⟩).active = true :=
  ⟨⟨rfl, rfl, rfl, rfl, by decide⟩,
    (C16_active_cleared_only_by_state_change dec_running frame_150_2 env_ok
      ⟨GST_FLOW_ERROR, ⟨[]⟩, GST_FLOW_OK, GST_FLOW_OK⟩ rfl rfl rfl rfl (by decide)).1⟩

end V4l2Dec
